import Mathlib

/-! libspp: CCSDS Space Packet Protocol packets

A shallow embedding of `include/libspp/libspp_const.h` (the packet codec) and of
the stream operations it uses.

Conventions of the embedding.

* A C++ `int` is a Lean `Int`; a `std::size_t` is a `Nat`.  The conversion of a
  negative `int` to `std::size_t` in `std::vector::resize` asks for more than
  `max_size()` elements and throws `std::length_error`; it is the error case of
  `SPPDataField.resize`.
* A call that mutates a packet returns the packet as the call leaves it together
  with the exception that ended the call, if any (`PacketCall`, `StreamCall`), so
  that what a throwing call has already changed stays visible.
* A bit-field of width `w` is a `Fin (2 ^ w)`; storing an `int` into it keeps the
  value modulo `2 ^ w` (`bitfield_store`).
* The memory image of the packed header is the one of the little-endian ABI the
  library is built for: bit-fields are allocated in declaration order from the
  least significant bit of their 16-bit storage unit, and each unit is stored
  low byte first.
* Streams are byte lists: an input stream is its unread bytes with the
  `failbit` and `eofbit` state flags, an output stream is the bytes written.
-/

namespace spp

abbrev VERSION_NUMBER_LEN : Nat := 3
abbrev TYPE_FLAG_LEN : Nat := 1
abbrev SEC_HDR_FLAG_LEN : Nat := 1
abbrev APP_ID_LEN : Nat := 11
abbrev SEQ_FLAGS_LEN : Nat := 2
abbrev SEQ_CNT_OR_NAME_LEN : Nat := 14
abbrev DATA_LEN_LEN : Nat := 16

end spp

/-- One octet (`std::byte`, `char`, `uint8_t`). -/
abbrev Byte : Type := Fin 256

/-- The octet holding the low eight bits of `n`. -/
def Byte.ofNat (n : Nat) : Byte := ⟨n % 256, Nat.mod_lt n (by decide)⟩

/-- Store of an `int` into an unsigned bit-field of width `w`: the value modulo `2 ^ w`. -/
def bitfield_store (w : Nat) (x : Int) : Fin (2 ^ w) :=
  ⟨(x % ((2 ^ w : Nat) : Int)).toNat, by
    have hpos : (0 : Int) < ((2 ^ w : Nat) : Int) := by exact_mod_cast Nat.two_pow_pos w
    have h1 := Int.emod_nonneg x (ne_of_gt hpos)
    have h2 := Int.emod_lt_of_pos x hpos
    omega⟩

/-- Load of the bit-field of width `w` at bit offset `off` of a storage unit. -/
def bitfield_load (w : Nat) (unit off : Nat) : Fin (2 ^ w) :=
  ⟨(unit / 2 ^ off) % 2 ^ w, Nat.mod_lt _ (Nat.two_pow_pos w)⟩

/-- The header `struct SPPPrimaryHeader`, its bit-fields in declaration order. -/
structure SPPPrimaryHeader where
  _app_id_h : Fin (2 ^ (spp.APP_ID_LEN - 8))
  _sec_hdr_flag : Fin (2 ^ spp.SEC_HDR_FLAG_LEN)
  _type : Fin (2 ^ spp.TYPE_FLAG_LEN)
  _version_number : Fin (2 ^ spp.VERSION_NUMBER_LEN)
  _app_id_l : Fin (2 ^ 8)
  _seq_cnt_or_name_h : Fin (2 ^ (spp.SEQ_CNT_OR_NAME_LEN - 8))
  _seq_flags : Fin (2 ^ spp.SEQ_FLAGS_LEN)
  _seq_cnt_or_name_l : Fin (2 ^ 8)
  _data_len_h : Fin (2 ^ (spp.DATA_LEN_LEN - 8))
  _data_len_l : Fin (2 ^ 8)
  deriving DecidableEq, Repr

namespace SPPPrimaryHeader

/-- The default member initialisers: every bit-field is `0`. -/
def default : SPPPrimaryHeader :=
  { _app_id_h := bitfield_store _ 0, _sec_hdr_flag := bitfield_store _ 0,
    _type := bitfield_store _ 0, _version_number := bitfield_store _ 0,
    _app_id_l := bitfield_store _ 0, _seq_cnt_or_name_h := bitfield_store _ 0,
    _seq_flags := bitfield_store _ 0, _seq_cnt_or_name_l := bitfield_store _ 0,
    _data_len_h := bitfield_store _ 0, _data_len_l := bitfield_store _ 0 }

/-- `sizeof(SPPPrimaryHeader)`, fixed by the `static_assert`. -/
abbrev sizeof : Nat := 6

/-- First 16-bit storage unit: `_app_id_h`, `_sec_hdr_flag`, `_type`,
`_version_number`, `_app_id_l` from the least significant bit up. -/
def unit0 (h : SPPPrimaryHeader) : Nat :=
  h._app_id_h.val + 2 ^ 3 * h._sec_hdr_flag.val + 2 ^ 4 * h._type.val
    + 2 ^ 5 * h._version_number.val + 2 ^ 8 * h._app_id_l.val

/-- Second storage unit: `_seq_cnt_or_name_h`, `_seq_flags`, `_seq_cnt_or_name_l`. -/
def unit1 (h : SPPPrimaryHeader) : Nat :=
  h._seq_cnt_or_name_h.val + 2 ^ 6 * h._seq_flags.val + 2 ^ 8 * h._seq_cnt_or_name_l.val

/-- Third storage unit: `_data_len_h`, `_data_len_l`. -/
def unit2 (h : SPPPrimaryHeader) : Nat :=
  h._data_len_h.val + 2 ^ 8 * h._data_len_l.val

/-- The six bytes of the object in memory (what `reinterpret_cast<char*>(&header)`
points to): each storage unit low byte first. -/
def bytes (h : SPPPrimaryHeader) : List Byte :=
  [Byte.ofNat (h.unit0 % 256), Byte.ofNat (h.unit0 / 256),
   Byte.ofNat (h.unit1 % 256), Byte.ofNat (h.unit1 / 256),
   Byte.ofNat (h.unit2 % 256), Byte.ofNat (h.unit2 / 256)]

/-- The header whose memory image is the first six bytes of `src`
(`std::memcpy(&primary_header, src, sizeof(SPPPrimaryHeader))`). -/
def memcpy (src : List Byte) : SPPPrimaryHeader :=
  let u0 := (src.getD 0 0).val + 256 * (src.getD 1 0).val
  let u1 := (src.getD 2 0).val + 256 * (src.getD 3 0).val
  let u2 := (src.getD 4 0).val + 256 * (src.getD 5 0).val
  { _app_id_h := bitfield_load _ u0 0
    _sec_hdr_flag := bitfield_load _ u0 3
    _type := bitfield_load _ u0 4
    _version_number := bitfield_load _ u0 5
    _app_id_l := bitfield_load _ u0 8
    _seq_cnt_or_name_h := bitfield_load _ u1 0
    _seq_flags := bitfield_load _ u1 6
    _seq_cnt_or_name_l := bitfield_load _ u1 8
    _data_len_h := bitfield_load _ u2 0
    _data_len_l := bitfield_load _ u2 8 }

end SPPPrimaryHeader

/-- `static constexpr std::size_t SPP_MAX_DATA_LEN = std::pow(2, 16)`. -/
def SPP_MAX_DATA_LEN : Nat := 2 ^ 16

/-- The exceptions the library can raise. -/
inductive SPPError where
  | invalid_argument
  | length_error
  deriving DecidableEq, Repr

/-- `std::vector<std::byte>::resize(n)`: keep the first `n` elements, pad with zero bytes. -/
def vector_resize (v : List Byte) (n : Nat) : List Byte :=
  v.take n ++ List.replicate (n - v.length) 0

/-- `std::copy_n(src, n, dst)` and `std::memcpy(dst, src, n)` on byte buffers:
the first `n` elements of `dst` are overwritten by those of `src`. -/
def copy_n (src : List Byte) (n : Nat) (dst : List Byte) : List Byte :=
  src.take n ++ dst.drop n

/-- The payload buffer `struct SPPDataField`. -/
structure SPPDataField where
  _data : List Byte
  deriving DecidableEq, Repr

namespace SPPDataField

/-- The default member initialiser `std::vector<std::byte>(0)`. -/
def default : SPPDataField := ⟨[]⟩

/-- `resize(int len)`: `_data.resize(len)`; a negative `len` converts to a
`size_t` above `max_size()` and the vector throws `std::length_error`. -/
def resize (d : SPPDataField) (len : Int) : Except SPPError SPPDataField :=
  if len < 0 then .error .length_error
  else .ok ⟨vector_resize d._data len.toNat⟩

/-- `size()`. -/
def size (d : SPPDataField) : Nat := d._data.length

end SPPDataField

/-- The packet `struct SPPPacket`. -/
structure SPPPacket where
  primary_header : SPPPrimaryHeader
  data_field : SPPDataField
  dirty_length : Bool
  deriving DecidableEq, Repr

/-- Outcome of a call that mutates a packet: the packet after the call, and the
exception that ended the call (`none` when it returned normally). -/
structure PacketCall where
  packet : SPPPacket
  thrown : Option SPPError
  deriving DecidableEq, Repr

namespace SPPPacket

/-- `SPPPacket() = default`: zero header, empty vector, `dirty_length = true`. -/
def default : SPPPacket :=
  { primary_header := SPPPrimaryHeader.default, data_field := SPPDataField.default,
    dirty_length := true }

/-- `version_number() const &`. -/
def version_number (p : SPPPacket) : Int := (p.primary_header._version_number.val : Int)

/-- Setter of the `version_number()` proxy. -/
def set_version_number (p : SPPPacket) (x : Int) : SPPPacket :=
  { p with primary_header := { p.primary_header with _version_number := bitfield_store _ x } }

/-- `type() const &`. -/
def type (p : SPPPacket) : Int := (p.primary_header._type.val : Int)

/-- Setter of the `type()` proxy. -/
def set_type (p : SPPPacket) (x : Int) : SPPPacket :=
  { p with primary_header := { p.primary_header with _type := bitfield_store _ x } }

/-- `sec_hdr_flag() const &`. -/
def sec_hdr_flag (p : SPPPacket) : Int := (p.primary_header._sec_hdr_flag.val : Int)

/-- Setter of the `sec_hdr_flag()` proxy. -/
def set_sec_hdr_flag (p : SPPPacket) (x : Int) : SPPPacket :=
  { p with primary_header := { p.primary_header with _sec_hdr_flag := bitfield_store _ x } }

/-- `app_id() const &`: `_app_id_h << 8 | _app_id_l`. -/
def app_id (p : SPPPacket) : Int :=
  ((p.primary_header._app_id_h.val <<< 8 ||| p.primary_header._app_id_l.val : Nat) : Int)

/-- Setter of the `app_id()` proxy:
`_app_id_h = (x >> 8) & 0x03; _app_id_l = x & 0xff`. -/
def set_app_id (p : SPPPacket) (x : Int) : SPPPacket :=
  { p with primary_header :=
      { p.primary_header with
        _app_id_h := bitfield_store _ (Int.land (x >>> (8 : Nat)) 0x03)
        _app_id_l := bitfield_store _ (Int.land x 0xff) } }

/-- `seq_flags() const &`. -/
def seq_flags (p : SPPPacket) : Int := (p.primary_header._seq_flags.val : Int)

/-- Setter of the `seq_flags()` proxy. -/
def set_seq_flags (p : SPPPacket) (x : Int) : SPPPacket :=
  { p with primary_header := { p.primary_header with _seq_flags := bitfield_store _ x } }

/-- `seq_cnt_or_name() const &`: `_seq_cnt_or_name_h << 8 | _seq_cnt_or_name_l`. -/
def seq_cnt_or_name (p : SPPPacket) : Int :=
  ((p.primary_header._seq_cnt_or_name_h.val <<< 8 ||| p.primary_header._seq_cnt_or_name_l.val
    : Nat) : Int)

/-- Setter of the `seq_cnt_or_name()` proxy:
`_seq_cnt_or_name_h = (x >> 8) & 0x3f; _seq_cnt_or_name_l = x & 0xff`. -/
def set_seq_cnt_or_name (p : SPPPacket) (x : Int) : SPPPacket :=
  { p with primary_header :=
      { p.primary_header with
        _seq_cnt_or_name_h := bitfield_store _ (Int.land (x >>> (8 : Nat)) 0x3f)
        _seq_cnt_or_name_l := bitfield_store _ (Int.land x 0xff) } }

/-- `data_len() const &`: `_data_len_h << 8 | _data_len_l`. -/
def data_len (p : SPPPacket) : Int :=
  ((p.primary_header._data_len_h.val <<< 8 ||| p.primary_header._data_len_l.val : Nat) : Int)

/-- Setter of the `data_len()` proxy: resize the data field to `len + 1`, clear
`dirty_length`, store `(len >> 8) & 0xff` and `len & 0xff`. -/
def set_data_len (p : SPPPacket) (len : Int) : PacketCall :=
  match p.data_field.resize (len + 1) with
  | .error e => { packet := p, thrown := some e }
  | .ok data_field =>
    { packet :=
        { primary_header :=
            { p.primary_header with
              _data_len_h := bitfield_store _ (Int.land (len >>> (8 : Nat)) 0xff)
              _data_len_l := bitfield_store _ (Int.land len 0xff) }
          data_field := data_field
          dirty_length := false }
      thrown := none }

/-- `data() const &`: the payload bytes. -/
def data (p : SPPPacket) : List Byte := p.data_field._data

/-- Setter of the `data()` proxy, on the span `s`: throw `std::invalid_argument`
on an empty span; otherwise set `dirty_length`, resize the data field to
`min(s.size(), SPP_MAX_DATA_LEN)` and copy that many bytes of `s` into it. -/
def set_data (p : SPPPacket) (s : List Byte) : PacketCall :=
  if s.length = 0 then { packet := p, thrown := some .invalid_argument }
  else
    let p1 : SPPPacket := { p with dirty_length := true }
    let size : Int := ((min s.length SPP_MAX_DATA_LEN : Nat) : Int)
    match p1.data_field.resize size with
    | .error e => { packet := p1, thrown := some e }
    | .ok data_field =>
      { packet := { p1 with data_field := ⟨copy_n s size.toNat data_field._data⟩ }
        thrown := none }

/-- `size()`: `sizeof(primary_header) + data_field.size()`. -/
def size (p : SPPPacket) : Nat := SPPPrimaryHeader.sizeof + p.data_field.size

end SPPPacket

/-- The header after the two stores of the `data_len()` setter. -/
def SPPPrimaryHeader.with_data_len (h : SPPPrimaryHeader) (len : Int) : SPPPrimaryHeader :=
  { h with
    _data_len_h := bitfield_store _ (Int.land (len >>> (8 : Nat)) 0xff)
    _data_len_l := bitfield_store _ (Int.land len 0xff) }

/-- An input stream (`std::istream`): the bytes not yet read and the state flags. -/
structure IStream where
  unread : List Byte
  failbit : Bool
  eofbit : Bool
  deriving DecidableEq, Repr

namespace IStream

/-- A freshly opened stream over `bytes`. -/
def open_on (bytes : List Byte) : IStream :=
  { unread := bytes, failbit := false, eofbit := false }

/-- `good()`: no state flag is set. -/
def good (s : IStream) : Bool := !s.failbit && !s.eofbit

/-- The stream as a condition (`explicit operator bool`): `!fail()`. -/
def truthy (s : IStream) : Bool := !s.failbit

/-- `read(dst, n)`: on a stream that is not good, set `failbit` and extract
nothing; otherwise extract `n` bytes into `dst`, or, when fewer are left, all of
them and set `failbit` and `eofbit`.  Returns the destination buffer and the
stream after the call. -/
def read (s : IStream) (dst : List Byte) (n : Nat) : List Byte × IStream :=
  if s.good then
    if n ≤ s.unread.length then
      (copy_n s.unread n dst, { s with unread := s.unread.drop n })
    else
      (copy_n s.unread s.unread.length dst, { unread := [], failbit := true, eofbit := true })
  else
    (dst, { s with failbit := true })

end IStream

/-- An output stream (`std::ostream`) that accepts every write: the bytes written so far. -/
structure OStream where
  written : List Byte
  deriving DecidableEq, Repr

namespace OStream

/-- `write(src, n)`: append the first `n` bytes of `src`. -/
def write (s : OStream) (src : List Byte) (n : Nat) : OStream :=
  { written := s.written ++ src.take n }

end OStream

/-- Outcome of a stream operator on a packet: the stream and the packet after
the call, and the exception that ended the call, if any. -/
structure StreamCall (σ : Type) where
  stream : σ
  packet : SPPPacket
  thrown : Option SPPError
  deriving DecidableEq, Repr

/-- `operator<<(std::ostream&, SPPPacket&)`: when `dirty_length` is set, assign
`data_field.size() - 1` to `data_len()` and clear the flag; then write the
header bytes and the data bytes. -/
def operator_lshift (output : OStream) (packet : SPPPacket) : StreamCall OStream :=
  let c : PacketCall :=
    if packet.dirty_length then
      let c := packet.set_data_len ((packet.data_field.size : Int) - 1)
      match c.thrown with
      | some e => { packet := c.packet, thrown := some e }
      | none => { packet := { c.packet with dirty_length := false }, thrown := none }
    else { packet := packet, thrown := none }
  match c.thrown with
  | some e => { stream := output, packet := c.packet, thrown := some e }
  | none =>
    let output1 := output.write c.packet.primary_header.bytes SPPPrimaryHeader.sizeof
    let output2 := output1.write c.packet.data_field._data c.packet.data_field.size
    { stream := output2, packet := c.packet, thrown := none }

/-- `operator>>(std::istream&, SPPPacket&)`: read the header into a zeroed
array and copy it over the packet's header, read `data_len() + 1` bytes into a
zero-filled vector, resize the data field and copy the vector into it. -/
def operator_rshift (input : IStream) (packet : SPPPacket) : StreamCall IStream :=
  let header0 : List Byte := List.replicate SPPPrimaryHeader.sizeof 0
  let r1 := input.read header0 SPPPrimaryHeader.sizeof
  let packet1 : SPPPacket := { packet with primary_header := SPPPrimaryHeader.memcpy r1.1 }
  let data_len : Int := packet1.data_len + 1
  let data0 : List Byte := vector_resize [] data_len.toNat
  let r2 := r1.2.read data0 data_len.toNat
  match packet1.data_field.resize data_len with
  | .error e => { stream := r2.2, packet := packet1, thrown := some e }
  | .ok data_field =>
    { stream := r2.2
      packet := { packet1 with data_field := ⟨copy_n r2.1 data_len.toNat data_field._data⟩ }
      thrown := none }

/-- The packet states the public interface can produce: the default
constructor followed by any sequence of header field writes, length writes,
payload writes, serialisations and deserialisations. -/
inductive Reachable : SPPPacket → Prop
  | default : Reachable SPPPacket.default
  | version_number (p : SPPPacket) (x : Int) : Reachable p → Reachable (p.set_version_number x)
  | type (p : SPPPacket) (x : Int) : Reachable p → Reachable (p.set_type x)
  | sec_hdr_flag (p : SPPPacket) (x : Int) : Reachable p → Reachable (p.set_sec_hdr_flag x)
  | app_id (p : SPPPacket) (x : Int) : Reachable p → Reachable (p.set_app_id x)
  | seq_flags (p : SPPPacket) (x : Int) : Reachable p → Reachable (p.set_seq_flags x)
  | seq_cnt_or_name (p : SPPPacket) (x : Int) :
      Reachable p → Reachable (p.set_seq_cnt_or_name x)
  | data_len (p : SPPPacket) (len : Int) : Reachable p → Reachable (p.set_data_len len).packet
  | data (p : SPPPacket) (s : List Byte) : Reachable p → Reachable (p.set_data s).packet
  | serialize (p : SPPPacket) (output : OStream) :
      Reachable p → Reachable (operator_lshift output p).packet
  | deserialize (p : SPPPacket) (input : IStream) :
      Reachable p → Reachable (operator_rshift input p).packet
/-- Serialise `p` to an empty output stream and deserialise the bytes written
into a default-constructed packet. -/
def serialize_then_deserialize (p : SPPPacket) : StreamCall IStream :=
  operator_rshift (IStream.open_on (operator_lshift ⟨[]⟩ p).stream.written) SPPPacket.default

/-- Deserialise the byte stream `w` into a default-constructed packet and
serialise that packet to an empty output stream. -/
def deserialize_then_serialize (w : List Byte) : StreamCall OStream :=
  operator_lshift ⟨[]⟩ (operator_rshift (IStream.open_on w) SPPPacket.default).packet

/-- The nine bytes of the worked example: header `08 01 00 00 00 02`, payload `AA BB CC`. -/
def scenario : List Byte := [0x08, 0x01, 0x00, 0x00, 0x00, 0x02, 0xAA, 0xBB, 0xCC]

/-- The length field agrees with the data field whenever `dirty_length` is clear
and the data field has a size the 16-bit field can express. -/
def Synced (p : SPPPacket) : Prop :=
  p.dirty_length = false → 1 ≤ p.data_field.size → p.data_field.size ≤ SPP_MAX_DATA_LEN →
    p.data_len + 1 = (p.data_field.size : Int)

instance (p : SPPPacket) : Decidable (Synced p) := by
  unfold Synced
  infer_instance

/-- `SPPPrimaryHeader::Iterator`: a pointer to a byte, held as its distance in
bytes from the address of the header it was taken from. -/
structure SPPPrimaryHeader.Iterator where
  m_ptr : Nat
  deriving DecidableEq, Repr

/-- `SPPPrimaryHeader::Iterator::operator++`: `m_ptr++`. -/
def SPPPrimaryHeader.Iterator.next (i : SPPPrimaryHeader.Iterator) :
    SPPPrimaryHeader.Iterator :=
  { m_ptr := i.m_ptr + 1 }

/-- `SPPPrimaryHeader::Iterator::operator*`: the byte pointed to; `none` when the
pointer is outside the six bytes of the header object. -/
def SPPPrimaryHeader.Iterator.deref (h : SPPPrimaryHeader) (i : SPPPrimaryHeader.Iterator) :
    Option Byte :=
  h.bytes[i.m_ptr]?

/-- `SPPPrimaryHeader::begin()`: `reinterpret_cast<std::byte*>(this)`. -/
def SPPPrimaryHeader.begin_ (_h : SPPPrimaryHeader) : SPPPrimaryHeader.Iterator :=
  { m_ptr := 0 }

/-- `SPPPrimaryHeader::end()`: `reinterpret_cast<std::byte*>(this + 6)`.  The sum
is taken on `this`, of type `SPPPrimaryHeader*`, before the cast, so it advances
by six objects: `6 * sizeof(SPPPrimaryHeader)` bytes. -/
def SPPPrimaryHeader.end_ (_h : SPPPrimaryHeader) : SPPPrimaryHeader.Iterator :=
  { m_ptr := 6 * SPPPrimaryHeader.sizeof }

/-- `SPPPacket::Iterator`: the variant `it` of a header iterator or an iterator
into `data_field._data`, the latter held as its index from `_data.begin()`.  The
`parent` packet is passed to the operations that use it. -/
inductive SPPPacket.Iterator where
  | header (it : SPPPrimaryHeader.Iterator)
  | data (it : Nat)
  deriving DecidableEq, Repr

/-- `SPPPacket::begin()`. -/
def SPPPacket.begin_ (p : SPPPacket) : SPPPacket.Iterator :=
  .header p.primary_header.begin_

/-- `SPPPacket::end()`: `Iterator(data_field.end())`. -/
def SPPPacket.end_ (p : SPPPacket) : SPPPacket.Iterator :=
  .data p.data_field.size

/-- `SPPPacket::Iterator::operator++`: increment the held iterator, then switch to
`parent->data_field.begin()` when a header iterator has reached
`parent->primary_header.end()`. -/
def SPPPacket.Iterator.next (parent : SPPPacket) (i : SPPPacket.Iterator) :
    SPPPacket.Iterator :=
  let i1 : SPPPacket.Iterator :=
    match i with
    | .header it => .header it.next
    | .data it => .data (it + 1)
  match i1 with
  | .header it => if it = parent.primary_header.end_ then .data 0 else i1
  | .data _ => i1

/-- The loop of `SPPPacket::Iterator::operator+` with `n` iterations left: stop
when `tmp` is the data iterator `parent->data_field.end()`, else `tmp++`. -/
def SPPPacket.Iterator.add_loop (parent : SPPPacket) : Nat → SPPPacket.Iterator →
    SPPPacket.Iterator
  | 0, tmp => tmp
  | n + 1, tmp =>
    if tmp = .data parent.data_field.size then tmp
    else SPPPacket.Iterator.add_loop parent n (tmp.next parent)

/-- `SPPPacket::Iterator::operator+(int x)`: `for (int i = 0; i < x; i++)`. -/
def SPPPacket.Iterator.add (parent : SPPPacket) (i : SPPPacket.Iterator) (x : Int) :
    SPPPacket.Iterator :=
  SPPPacket.Iterator.add_loop parent x.toNat i

/-- `SPPPacket::Iterator::operator*`: the byte the held iterator points to. -/
def SPPPacket.Iterator.deref (parent : SPPPacket) : SPPPacket.Iterator → Option Byte
  | .header it => it.deref parent.primary_header
  | .data it => parent.data_field._data[it]?

/-- The bytes obtained by dereferencing and stepping `n` times from `i`. -/
def SPPPacket.Iterator.collect (parent : SPPPacket) : Nat → SPPPacket.Iterator →
    List (Option Byte)
  | 0, _ => []
  | n + 1, i => i.deref parent :: SPPPacket.Iterator.collect parent n (i.next parent)

/-- Outcome of the constructor `SPPPacket(uint8_t const*)`: the members as its
well-defined stores leave them, the bytes its last `memcpy` writes over the
object representation of the vector `data_field._data` (its destination is
`&data_field._data`, not `_data.data()`), and the exception thrown, if any. -/
structure RawConstruction where
  packet : SPPPacket
  written_over_vector_object : List Byte
  thrown : Option SPPError
  deriving DecidableEq, Repr

/-- The constructor `SPPPacket(uint8_t const* input)`: copy the header, resize
the data field to `data_len() + 1`, then `memcpy` that many bytes following the
header to `&data_field._data`.  The elements of the data field are not written. -/
def SPPPacket.from_buffer (input : List Byte) : RawConstruction :=
  let p1 : SPPPacket :=
    { SPPPacket.default with primary_header := SPPPrimaryHeader.memcpy input }
  let len : Int := p1.data_len + 1
  match p1.data_field.resize len with
  | .error e => { packet := p1, written_over_vector_object := [], thrown := some e }
  | .ok data_field =>
    { packet := { p1 with data_field := data_field }
      written_over_vector_object := (input.drop SPPPrimaryHeader.sizeof).take len.toNat
      thrown := none }

/-- The public operations other than construction, with their arguments. -/
inductive Operation where
  | version_number (x : Int)
  | type (x : Int)
  | sec_hdr_flag (x : Int)
  | app_id (x : Int)
  | seq_flags (x : Int)
  | seq_cnt_or_name (x : Int)
  | data_len (len : Int)
  | data (s : List Byte)
  | serialize (output : OStream)
  | deserialize (input : IStream)

/-- The packet after an operation. -/
def Operation.apply (p : SPPPacket) : Operation → SPPPacket
  | .version_number x => p.set_version_number x
  | .type x => p.set_type x
  | .sec_hdr_flag x => p.set_sec_hdr_flag x
  | .app_id x => p.set_app_id x
  | .seq_flags x => p.set_seq_flags x
  | .seq_cnt_or_name x => p.set_seq_cnt_or_name x
  | .data_len len => (p.set_data_len len).packet
  | .data s => (p.set_data s).packet
  | .serialize output => (operator_lshift output p).packet
  | .deserialize input => (operator_rshift input p).packet

/-- An operation whose `data_len` argument, if any, is within `0..65535`. -/
def Operation.in_range : Operation → Prop
  | .data_len len => 0 ≤ len ∧ len ≤ 65535
  | _ => True

/-- The packet after a sequence of operations on a default-constructed packet. -/
def run (ops : List Operation) : SPPPacket :=
  ops.foldl Operation.apply SPPPacket.default

/-- The header array of `operator>>` after its first `read` on a readable stream
over `bs`: the bytes read, then the zero bytes the array was initialised with. -/
def header_read (bs : List Byte) : List Byte :=
  bs.take SPPPrimaryHeader.sizeof ++ List.replicate (SPPPrimaryHeader.sizeof - bs.length) 0

/-- The payload length `data_len() + 1` that the header read from `bs` declares. -/
def declared_length (bs : List Byte) : Nat :=
  (({ SPPPacket.default with primary_header := SPPPrimaryHeader.memcpy (header_read bs) }
    : SPPPacket).data_len + 1).toNat

/-- The stream over `bs` ends before the header or the declared payload is read. -/
def Truncated (bs : List Byte) : Prop :=
  bs.length < SPPPrimaryHeader.sizeof ∨
    (bs.drop SPPPrimaryHeader.sizeof).length < declared_length bs

instance (bs : List Byte) : Decidable (Truncated bs) := by
  unfold Truncated
  infer_instance

/-- The packet of the worked example: the result of deserialising `scenario`. -/
def scenario_packet : SPPPacket :=
  (operator_rshift (IStream.open_on scenario) SPPPacket.default).packet

/-! ## The memory image of the header -/

namespace SPPPrimaryHeader

/-- The width of every bit-field, as a bound on its value. -/
theorem field_bounds (h : SPPPrimaryHeader) :
    h._app_id_h.val < 8 ∧ h._sec_hdr_flag.val < 2 ∧ h._type.val < 2 ∧
    h._version_number.val < 8 ∧ h._app_id_l.val < 256 ∧ h._seq_cnt_or_name_h.val < 64 ∧
    h._seq_flags.val < 4 ∧ h._seq_cnt_or_name_l.val < 256 ∧ h._data_len_h.val < 256 ∧
    h._data_len_l.val < 256 :=
  ⟨h._app_id_h.isLt, h._sec_hdr_flag.isLt, h._type.isLt, h._version_number.isLt,
   h._app_id_l.isLt, h._seq_cnt_or_name_h.isLt, h._seq_flags.isLt,
   h._seq_cnt_or_name_l.isLt, h._data_len_h.isLt, h._data_len_l.isLt⟩

theorem memcpy_bytes (h : SPPPrimaryHeader) : memcpy h.bytes = h := by
  obtain ⟨h0, h1, h2, h3, h4, h5, h6, h7, h8, h9⟩ := field_bounds h
  obtain ⟨a, s, t, v, al, ch, f, cl, dh, dl⟩ := h
  simp only at h0 h1 h2 h3 h4 h5 h6 h7 h8 h9
  simp only [memcpy, bytes, Byte.ofNat, List.getD_cons_zero, List.getD_cons_succ,
    bitfield_load, unit0, unit1, unit2, mk.injEq, Fin.ext_iff, spp.APP_ID_LEN,
    spp.SEC_HDR_FLAG_LEN, spp.TYPE_FLAG_LEN, spp.VERSION_NUMBER_LEN, spp.SEQ_CNT_OR_NAME_LEN,
    spp.SEQ_FLAGS_LEN, spp.DATA_LEN_LEN, Nat.reduceSub, Nat.reducePow]
  refine ⟨?_, ?_, ?_, ?_, ?_, ?_, ?_, ?_, ?_, ?_⟩ <;> omega

theorem length_bytes (h : SPPPrimaryHeader) : h.bytes.length = 6 := rfl

theorem bytes_memcpy (src : List Byte) (hlen : src.length = 6) : (memcpy src).bytes = src := by
  match src, hlen with
  | [b0, b1, b2, b3, b4, b5], _ =>
    have := b0.isLt; have := b1.isLt; have := b2.isLt; have := b3.isLt
    have := b4.isLt; have := b5.isLt
    simp only [bytes, memcpy, unit0, unit1, unit2, bitfield_load, Byte.ofNat, List.getD_cons_zero,
      List.getD_cons_succ, List.cons.injEq, Fin.ext_iff, and_true, spp.APP_ID_LEN,
      spp.SEC_HDR_FLAG_LEN, spp.TYPE_FLAG_LEN, spp.VERSION_NUMBER_LEN, spp.SEQ_CNT_OR_NAME_LEN,
      spp.SEQ_FLAGS_LEN, spp.DATA_LEN_LEN, Nat.reduceSub, Nat.reducePow]
    refine ⟨?_, ?_, ?_, ?_, ?_, ?_⟩ <;> omega

end SPPPrimaryHeader

/-! ## Bit arithmetic -/

theorem shl8_or (a b : Nat) (hb : b < 256) : a <<< 8 ||| b = a * 256 + b := by
  have h := Nat.mul_add_lt_is_or (i := 8) (b := b) (by simpa using hb) a
  rw [Nat.shiftLeft_eq, Nat.mul_comm a (2 ^ 8), ← h, Nat.mul_comm]

theorem and_one (x : Nat) : x &&& 1 = x % 2 := Nat.and_pow_two_sub_one_eq_mod x 1
theorem and_seven (x : Nat) : x &&& 7 = x % 8 := Nat.and_pow_two_sub_one_eq_mod x 3
theorem and_x3f (x : Nat) : x &&& 0x3f = x % 64 := Nat.and_pow_two_sub_one_eq_mod x 6
theorem and_xff (x : Nat) : x &&& 0xff = x % 256 := Nat.and_pow_two_sub_one_eq_mod x 8
theorem and_three (x : Nat) : x &&& 3 = x % 4 := Nat.and_pow_two_sub_one_eq_mod x 2

theorem int_land_ofNat (m n : Nat) : Int.land (m : Int) (n : Int) = ((m &&& n : Nat) : Int) := rfl

theorem int_shr_ofNat (m k : Nat) : (m : Int) >>> k = ((m >>> k : Nat) : Int) := rfl

theorem val_bitfield_store_ofNat (w n : Nat) : (bitfield_store w (n : Int)).val = n % 2 ^ w := by
  simp only [bitfield_store]
  rw [← Int.natCast_mod, Int.toNat_natCast]

/-! ## Buffers -/

theorem length_vector_resize (v : List Byte) (n : Nat) : (vector_resize v n).length = n := by
  simp only [vector_resize, List.length_append, List.length_take, List.length_replicate]
  omega

theorem vector_resize_length (v : List Byte) : vector_resize v v.length = v := by
  simp [vector_resize]

theorem copy_n_full (src dst : List Byte) (n : Nat) (hd : dst.length ≤ n) :
    copy_n src n dst = src.take n := by
  simp [copy_n, List.drop_eq_nil_of_le hd]

theorem SPPDataField.resize_nonneg (d : SPPDataField) (len : Int) (h : 0 ≤ len) :
    d.resize len = .ok ⟨vector_resize d._data len.toNat⟩ := by
  simp [SPPDataField.resize, not_lt.mpr h]

theorem IStream.read_enough (s : IStream) (dst : List Byte) (n : Nat) (hg : s.good = true)
    (hn : n ≤ s.unread.length) :
    s.read dst n = (copy_n s.unread n dst, { s with unread := s.unread.drop n }) := by
  simp [IStream.read, hg, hn]

/-! ## Header fields as numbers -/

theorem SPPPacket.data_len_eq (p : SPPPacket) :
    p.data_len = ((p.primary_header._data_len_h.val * 256 + p.primary_header._data_len_l.val
      : Nat) : Int) := by
  simp only [SPPPacket.data_len]
  rw [shl8_or _ _ p.primary_header._data_len_l.isLt]

theorem SPPPacket.data_len_range (p : SPPPacket) : 0 ≤ p.data_len ∧ p.data_len < 65536 := by
  have h1 : p.primary_header._data_len_h.val < 256 := p.primary_header._data_len_h.isLt
  have h2 : p.primary_header._data_len_l.val < 256 := p.primary_header._data_len_l.isLt
  rw [p.data_len_eq]
  omega

/-! ## The stream operators on complete input -/

theorem IStream.read_fresh (unread dst : List Byte) (n : Nat) (hn : n ≤ unread.length) :
    ({ unread := unread, failbit := false, eofbit := false } : IStream).read dst n =
      (copy_n unread n dst, { unread := unread.drop n, failbit := false, eofbit := false }) :=
  IStream.read_enough _ dst n rfl hn

/-- Deserialising a stream that holds a header and the payload it declares. -/
theorem operator_rshift_complete (q : SPPPacket) (hdr payload rest : List Byte)
    (hh : hdr.length = 6)
    (hp : (payload.length : Int) =
      ({ q with primary_header := SPPPrimaryHeader.memcpy hdr } : SPPPacket).data_len + 1) :
    operator_rshift (IStream.open_on (hdr ++ payload ++ rest)) q =
      { stream := { unread := rest, failbit := false, eofbit := false }
        packet := { primary_header := SPPPrimaryHeader.memcpy hdr, data_field := ⟨payload⟩,
                    dirty_length := q.dirty_length }
        thrown := none } := by
  have hr1 : (IStream.open_on (hdr ++ payload ++ rest)).read
      (List.replicate SPPPrimaryHeader.sizeof 0) SPPPrimaryHeader.sizeof =
      (hdr, { unread := payload ++ rest, failbit := false, eofbit := false }) := by
    rw [IStream.open_on, IStream.read_fresh _ _ _ (by simp [hh]), copy_n_full _ _ _ (by simp)]
    simp [← hh, List.append_assoc]
  have hn : (({ q with primary_header := SPPPrimaryHeader.memcpy hdr } : SPPPacket).data_len
      + 1).toNat = payload.length := by
    rw [← hp]; simp
  have hnn : (0 : Int) ≤
      ({ q with primary_header := SPPPrimaryHeader.memcpy hdr } : SPPPacket).data_len + 1 := by
    rw [← hp]; simp
  simp only [operator_rshift, hr1, hn, SPPDataField.resize_nonneg _ _ hnn]
  rw [IStream.read_fresh _ _ _ (by simp),
    copy_n_full _ _ _ (by simp [length_vector_resize]),
    copy_n_full _ _ _ (by simp [length_vector_resize])]
  simp

/-! ## Writing the length field -/

theorem int_land_xff (m : Nat) : Int.land (m : Int) 0xff = ((m % 256 : Nat) : Int) := by
  show Int.land (m : Int) ((255 : Nat) : Int) = _
  rw [int_land_ofNat, and_xff]

theorem val_store_len_h (n : Nat) :
    (bitfield_store (spp.DATA_LEN_LEN - 8) (Int.land ((n : Int) >>> (8 : Nat)) 0xff)).val
      = n / 256 % 256 := by
  rw [int_shr_ofNat, int_land_xff, val_bitfield_store_ofNat, Nat.shiftRight_eq_div_pow]
  simp only [spp.DATA_LEN_LEN, Nat.reduceSub, Nat.reducePow]
  omega

theorem val_store_len_l (n : Nat) :
    (bitfield_store 8 (Int.land (n : Int) 0xff)).val = n % 256 := by
  rw [int_land_xff, val_bitfield_store_ofNat]
  simp

theorem SPPPacket.set_data_len_returns (p : SPPPacket) (len : Int) (h : -1 ≤ len) :
    p.set_data_len len =
      { packet :=
          { primary_header := p.primary_header.with_data_len len
            data_field := ⟨vector_resize p.data_field._data (len + 1).toNat⟩
            dirty_length := false }
        thrown := none } := by
  have h0 : (0 : Int) ≤ len + 1 := by omega
  simp only [SPPPacket.set_data_len, SPPDataField.resize_nonneg _ _ h0]
  rfl

theorem SPPPacket.data_len_with_data_len (h : SPPPrimaryHeader) (d : SPPDataField) (b : Bool)
    (n : Nat) :
    ({ primary_header := h.with_data_len (n : Int), data_field := d, dirty_length := b }
      : SPPPacket).data_len = ((n % 65536 : Nat) : Int) := by
  rw [SPPPacket.data_len_eq]
  simp only [SPPPrimaryHeader.with_data_len, val_store_len_h, val_store_len_l]
  congr 1
  omega

/-! ## Serialisation -/

theorem operator_lshift_clean (out : OStream) (p : SPPPacket) (h : p.dirty_length = false) :
    operator_lshift out p =
      { stream := ⟨out.written ++ p.primary_header.bytes ++ p.data_field._data⟩
        packet := p
        thrown := none } := by
  simp [operator_lshift, h, OStream.write, SPPDataField.size, SPPPrimaryHeader.bytes]

theorem operator_lshift_dirty (out : OStream) (p : SPPPacket) (h : p.dirty_length = true) :
    operator_lshift out p =
      { stream := ⟨out.written
          ++ (p.primary_header.with_data_len ((p.data_field.size : Int) - 1)).bytes
          ++ p.data_field._data⟩
        packet :=
          { primary_header := p.primary_header.with_data_len ((p.data_field.size : Int) - 1)
            data_field := p.data_field
            dirty_length := false }
        thrown := none } := by
  have h1 : (-1 : Int) ≤ (p.data_field.size : Int) - 1 := by omega
  have h2 : ((p.data_field.size : Int) - 1 + 1).toNat = p.data_field._data.length := by
    simp [SPPDataField.size]
  simp only [operator_lshift, h, if_true, SPPPacket.set_data_len_returns _ _ h1, h2,
    vector_resize_length]
  simp [OStream.write, SPPDataField.size, SPPPrimaryHeader.bytes]

/-! ## Deserialisation sizes the data field from the header -/

theorem length_copy_n (src dst : List Byte) (n : Nat) :
    (copy_n src n dst).length = min n src.length + (dst.length - n) := by
  simp [copy_n]

theorem IStream.length_read (s : IStream) (dst : List Byte) (n : Nat) (hd : dst.length = n) :
    (s.read dst n).1.length = n := by
  unfold IStream.read
  split
  · split
    · rw [length_copy_n]; omega
    · rw [length_copy_n]; omega
  · exact hd

/-- What `operator>>` leaves behind on any input: it never throws, and the packet
has the header copied from the header buffer and a data field of the declared size. -/
theorem operator_rshift_returns (input : IStream) (p : SPPPacket) :
    operator_rshift input p =
      { stream := ((input.read (List.replicate 6 0) 6).2.read
            (vector_resize [] (({ p with primary_header := (SPPPrimaryHeader.memcpy
              (input.read (List.replicate 6 0) 6).1) } : SPPPacket).data_len + 1).toNat)
            (({ p with primary_header := (SPPPrimaryHeader.memcpy
              (input.read (List.replicate 6 0) 6).1) } : SPPPacket).data_len + 1).toNat).2
        packet :=
          { primary_header := SPPPrimaryHeader.memcpy (input.read (List.replicate 6 0) 6).1
            data_field := ⟨copy_n
              ((input.read (List.replicate 6 0) 6).2.read
                (vector_resize [] (({ p with primary_header := (SPPPrimaryHeader.memcpy
                  (input.read (List.replicate 6 0) 6).1) } : SPPPacket).data_len + 1).toNat)
                (({ p with primary_header := (SPPPrimaryHeader.memcpy
                  (input.read (List.replicate 6 0) 6).1) } : SPPPacket).data_len + 1).toNat).1
              (({ p with primary_header := (SPPPrimaryHeader.memcpy
                (input.read (List.replicate 6 0) 6).1) } : SPPPacket).data_len + 1).toNat
              (vector_resize p.data_field._data
                (({ p with primary_header := (SPPPrimaryHeader.memcpy
                  (input.read (List.replicate 6 0) 6).1) } : SPPPacket).data_len + 1).toNat)⟩
            dirty_length := p.dirty_length }
        thrown := none } := by
  have h0 := (SPPPacket.data_len_range { p with primary_header := (SPPPrimaryHeader.memcpy
      (input.read (List.replicate 6 0) 6).1) }).1
  simp only [operator_rshift,
    SPPDataField.resize_nonneg _ _ (Int.add_nonneg h0 (by decide : (0 : Int) ≤ 1))]

theorem operator_rshift_size (input : IStream) (p : SPPPacket) :
    ((operator_rshift input p).packet.data_field.size : Int)
      = (operator_rshift input p).packet.data_len + 1 := by
  have h0 := (SPPPacket.data_len_range { p with primary_header := (SPPPrimaryHeader.memcpy
      (input.read (List.replicate 6 0) 6).1) }).1
  rw [operator_rshift_returns]
  simp only [SPPDataField.size, length_copy_n, length_vector_resize,
    IStream.length_read _ _ _ (length_vector_resize _ _), SPPPacket.data_len] at *
  omega

/-! ## The payload setter and the throwing case of the length setter -/

theorem SPPPacket.set_data_len_throws (p : SPPPacket) (len : Int) (h : len < -1) :
    p.set_data_len len = { packet := p, thrown := some .length_error } := by
  have h0 : len + 1 < 0 := by omega
  simp [SPPPacket.set_data_len, SPPDataField.resize, h0]

theorem SPPPacket.set_data_empty (p : SPPPacket) :
    p.set_data [] = { packet := p, thrown := some .invalid_argument } := by
  simp [SPPPacket.set_data]

theorem SPPPacket.set_data_nonempty (p : SPPPacket) (s : List Byte) (hs : s ≠ []) :
    p.set_data s =
      { packet :=
          { primary_header := p.primary_header
            data_field := ⟨s.take (min s.length SPP_MAX_DATA_LEN)⟩
            dirty_length := true }
        thrown := none } := by
  have hl : s.length ≠ 0 := by simpa using hs
  have h0 : (0 : Int) ≤ ((min s.length SPP_MAX_DATA_LEN : Nat) : Int) := Int.natCast_nonneg _
  simp only [SPPPacket.set_data, hl, if_false, SPPDataField.resize_nonneg _ _ h0,
    Int.toNat_natCast]
  rw [copy_n_full _ _ _ (by rw [length_vector_resize])]

/-! ## The invariant of reachable packets -/

theorem Reachable.synced {p : SPPPacket} (hp : Reachable p) : Synced p := by
  induction hp with
  | default => intro h; simp [SPPPacket.default] at h
  | version_number p x _ ih => exact ih
  | type p x _ ih => exact ih
  | sec_hdr_flag p x _ ih => exact ih
  | app_id p x _ ih => exact ih
  | seq_flags p x _ ih => exact ih
  | seq_cnt_or_name p x _ ih => exact ih
  | data_len p len _ ih =>
    by_cases hl : -1 ≤ len
    · rw [SPPPacket.set_data_len_returns _ _ hl]
      intro _ h1 h2
      simp only [SPPDataField.size, length_vector_resize, SPP_MAX_DATA_LEN] at h1 h2
      obtain ⟨n, rfl⟩ := Int.eq_ofNat_of_zero_le (show (0 : Int) ≤ len by omega)
      rw [SPPPacket.data_len_with_data_len]
      simp only [SPPDataField.size, length_vector_resize]
      omega
    · rw [SPPPacket.set_data_len_throws _ _ (by omega)]
      exact ih
  | data p s _ ih =>
    by_cases hs : s = []
    · subst hs; rw [SPPPacket.set_data_empty]; exact ih
    · rw [SPPPacket.set_data_nonempty _ _ hs]
      intro h; simp at h
  | serialize p output _ ih =>
    cases hd : p.dirty_length with
    | false => rw [operator_lshift_clean _ _ hd]; exact ih
    | true =>
      rw [operator_lshift_dirty _ _ hd]
      intro _ h1 h2
      simp only [SPP_MAX_DATA_LEN] at h2
      simp only at h1 h2
      obtain ⟨n, hn⟩ := Int.eq_ofNat_of_zero_le
        (show (0 : Int) ≤ (p.data_field.size : Int) - 1 by omega)
      rw [hn, SPPPacket.data_len_with_data_len]
      simp only
      omega
  | deserialize p input _ ih =>
    intro _ _ _
    rw [operator_rshift_size]

/-! ## Round trips -/

theorem SPPPrimaryHeader.with_data_len_self (h : SPPPrimaryHeader) (n : Nat)
    (hn : n = h._data_len_h.val * 256 + h._data_len_l.val) :
    h.with_data_len (n : Int) = h := by
  have h1 : h._data_len_h.val < 256 := h._data_len_h.isLt
  have h2 : h._data_len_l.val < 256 := h._data_len_l.isLt
  obtain ⟨a, s, t, v, al, ch, f, cl, dh, dl⟩ := h
  simp only [SPPPrimaryHeader.with_data_len, SPPPrimaryHeader.mk.injEq, true_and, Fin.ext_iff,
    val_store_len_h, val_store_len_l]
  simp only at hn h1 h2
  omega

/-- Deserialising the memory image of `h` followed by `d`, where `h` declares the
length of `d`, gives back exactly `h` and `d`. -/
theorem operator_rshift_image (q : SPPPacket) (h : SPPPrimaryHeader) (d rest : List Byte)
    (hd : (d.length : Int) =
      ({ primary_header := h, data_field := q.data_field, dirty_length := q.dirty_length }
        : SPPPacket).data_len + 1) :
    operator_rshift (IStream.open_on (h.bytes ++ d ++ rest)) q =
      { stream := { unread := rest, failbit := false, eofbit := false }
        packet := { primary_header := h, data_field := ⟨d⟩, dirty_length := q.dirty_length }
        thrown := none } := by
  have := operator_rshift_complete q h.bytes d rest h.length_bytes
    (by rw [SPPPrimaryHeader.memcpy_bytes]; exact hd)
  rw [this, SPPPrimaryHeader.memcpy_bytes]

/-- C1: round trip packet -> bytes -> packet.  For every packet the interface can
produce whose payload has length `L` with `1 ≤ L ≤ 65536`, serialising it and
deserialising the bytes written into a fresh packet succeeds, consumes the whole
stream, and yields a packet with the same `version_number`, `type`,
`sec_hdr_flag`, `app_id`, `seq_flags` and `seq_cnt_or_name`, with
`data_len = L - 1` and with the same payload. -/
theorem roundtrip_packet_bytes_packet (P : SPPPacket) (hP : Reachable P)
    (hL1 : 1 ≤ P.data.length) (hL2 : P.data.length ≤ 65536) :
    (operator_lshift ⟨[]⟩ P).thrown = none ∧
    (serialize_then_deserialize P).thrown = none ∧
    (serialize_then_deserialize P).stream.truthy = true ∧
    (serialize_then_deserialize P).stream.unread = [] ∧
    (serialize_then_deserialize P).packet.version_number = P.version_number ∧
    (serialize_then_deserialize P).packet.type = P.type ∧
    (serialize_then_deserialize P).packet.sec_hdr_flag = P.sec_hdr_flag ∧
    (serialize_then_deserialize P).packet.app_id = P.app_id ∧
    (serialize_then_deserialize P).packet.seq_flags = P.seq_flags ∧
    (serialize_then_deserialize P).packet.seq_cnt_or_name = P.seq_cnt_or_name ∧
    (serialize_then_deserialize P).packet.data_len = (P.data.length : Int) - 1 ∧
    (serialize_then_deserialize P).packet.data = P.data := by
  have hsync := hP.synced
  simp only [SPPPacket.data] at hL1 hL2 ⊢
  cases hd : P.dirty_length with
  | false =>
    have hlen := hsync hd hL1 (by simpa [SPP_MAX_DATA_LEN, SPPDataField.size] using hL2)
    simp only [SPPDataField.size] at hlen
    have hr := operator_rshift_image SPPPacket.default P.primary_header P.data_field._data []
      (by rw [← hlen]; rfl)
    have hk : serialize_then_deserialize P =
        { stream := { unread := [], failbit := false, eofbit := false }
          packet := { primary_header := P.primary_header, data_field := ⟨P.data_field._data⟩,
                      dirty_length := SPPPacket.default.dirty_length }
          thrown := none } := by
      simp only [serialize_then_deserialize, operator_lshift_clean _ _ hd, List.nil_append]
      rw [← List.append_nil (P.primary_header.bytes ++ P.data_field._data), hr]
    rw [hk, operator_lshift_clean _ _ hd]
    refine ⟨rfl, rfl, rfl, rfl, rfl, rfl, rfl, rfl, rfl, rfl, ?_, rfl⟩
    rw [← hlen]
    simp [SPPPacket.data_len]
  | true =>
    obtain ⟨n, hn⟩ := Int.eq_ofNat_of_zero_le
      (show (0 : Int) ≤ (P.data_field.size : Int) - 1 by simp only [SPPDataField.size]; omega)
    have hn' : n + 1 = P.data_field._data.length := by
      simp only [SPPDataField.size] at hn; omega
    have hdl := SPPPacket.data_len_with_data_len P.primary_header
      SPPPacket.default.data_field SPPPacket.default.dirty_length n
    rw [Nat.mod_eq_of_lt (by omega)] at hdl
    have hr := operator_rshift_image SPPPacket.default (P.primary_header.with_data_len n)
      P.data_field._data [] (by rw [hdl, ← hn']; simp)
    have hk : serialize_then_deserialize P =
        { stream := { unread := [], failbit := false, eofbit := false }
          packet := { primary_header := P.primary_header.with_data_len n,
                      data_field := ⟨P.data_field._data⟩,
                      dirty_length := SPPPacket.default.dirty_length }
          thrown := none } := by
      simp only [serialize_then_deserialize, operator_lshift_dirty _ _ hd, List.nil_append, hn]
      rw [← List.append_nil ((P.primary_header.with_data_len n).bytes ++ P.data_field._data),
        hr]
    rw [hk, operator_lshift_dirty _ _ hd]
    refine ⟨rfl, rfl, rfl, rfl, rfl, rfl, rfl, rfl, rfl, rfl, ?_, rfl⟩
    rw [SPPPacket.data_len_with_data_len, Nat.mod_eq_of_lt (by omega), ← hn']
    simp

/-- C1 at a concrete packet: a default packet given the payload `AA BB CC`. -/
theorem roundtrip_packet_bytes_packet_witness :
    (serialize_then_deserialize
        (SPPPacket.default.set_data [0xAA, 0xBB, 0xCC]).packet).packet.data_len = 2 ∧
    (serialize_then_deserialize
        (SPPPacket.default.set_data [0xAA, 0xBB, 0xCC]).packet).packet.data
      = [0xAA, 0xBB, 0xCC] := by
  have h := roundtrip_packet_bytes_packet (SPPPacket.default.set_data [0xAA, 0xBB, 0xCC]).packet
    (Reachable.data _ _ Reachable.default) (by decide) (by decide)
  exact ⟨by rw [h.2.2.2.2.2.2.2.2.2.2.1]; decide, by rw [h.2.2.2.2.2.2.2.2.2.2.2]; decide⟩

/-! ## Decoding -/

/-- The bit-fields of a header copied from six bytes, in terms of the bytes. -/
theorem SPPPrimaryHeader.memcpy_fields (b0 b1 b2 b3 b4 b5 : Byte) :
    (memcpy [b0, b1, b2, b3, b4, b5])._version_number.val = b0.val / 32 ∧
    (memcpy [b0, b1, b2, b3, b4, b5])._type.val = b0.val / 16 % 2 ∧
    (memcpy [b0, b1, b2, b3, b4, b5])._sec_hdr_flag.val = b0.val / 8 % 2 ∧
    (memcpy [b0, b1, b2, b3, b4, b5])._app_id_h.val = b0.val % 8 ∧
    (memcpy [b0, b1, b2, b3, b4, b5])._app_id_l.val = b1.val ∧
    (memcpy [b0, b1, b2, b3, b4, b5])._seq_flags.val = b2.val / 64 ∧
    (memcpy [b0, b1, b2, b3, b4, b5])._seq_cnt_or_name_h.val = b2.val % 64 ∧
    (memcpy [b0, b1, b2, b3, b4, b5])._seq_cnt_or_name_l.val = b3.val ∧
    (memcpy [b0, b1, b2, b3, b4, b5])._data_len_h.val = b4.val ∧
    (memcpy [b0, b1, b2, b3, b4, b5])._data_len_l.val = b5.val := by
  have := b0.isLt; have := b1.isLt; have := b2.isLt; have := b3.isLt
  have := b4.isLt; have := b5.isLt
  simp only [memcpy, bitfield_load, List.getD_cons_zero, List.getD_cons_succ, spp.APP_ID_LEN,
    spp.SEC_HDR_FLAG_LEN, spp.TYPE_FLAG_LEN, spp.VERSION_NUMBER_LEN, spp.SEQ_CNT_OR_NAME_LEN,
    spp.SEQ_FLAGS_LEN, spp.DATA_LEN_LEN, Nat.reduceSub, Nat.reducePow]
  refine ⟨?_, ?_, ?_, ?_, ?_, ?_, ?_, ?_, ?_, ?_⟩ <;> omega

/-- C2: decode correctness.  On a stream that starts with header bytes `b0..b5`
followed by at least `n = ((b4<<8)|b5)+1` further bytes (the first `n` of them
`payload`, then `rest`), `operator>>` returns normally with
`version_number = b0>>5`, `type = (b0>>4)&1`, `sec_hdr_flag = (b0>>3)&1`,
`app_id = ((b0&7)<<8)|b1`, `seq_flags = b2>>6`,
`seq_cnt_or_name = ((b2&0x3f)<<8)|b3`, `data_len = (b4<<8)|b5` and the payload
equal to the next `n` bytes; it consumes exactly `6+n` bytes, leaving `rest`
unread and the stream good. -/
theorem deserialize_decodes (q : SPPPacket) (b0 b1 b2 b3 b4 b5 : Byte)
    (payload rest : List Byte)
    (hn : payload.length = (b4.val <<< 8 ||| b5.val) + 1) :
    ∃ r : StreamCall IStream,
      operator_rshift (IStream.open_on ([b0, b1, b2, b3, b4, b5] ++ payload ++ rest)) q = r ∧
      r.thrown = none ∧
      r.packet.version_number = ((b0.val >>> 5 : Nat) : Int) ∧
      r.packet.type = (((b0.val >>> 4) &&& 1 : Nat) : Int) ∧
      r.packet.sec_hdr_flag = (((b0.val >>> 3) &&& 1 : Nat) : Int) ∧
      r.packet.app_id = ((((b0.val &&& 7) <<< 8) ||| b1.val : Nat) : Int) ∧
      r.packet.seq_flags = ((b2.val >>> 6 : Nat) : Int) ∧
      r.packet.seq_cnt_or_name = ((((b2.val &&& 0x3f) <<< 8) ||| b3.val : Nat) : Int) ∧
      r.packet.data_len = (((b4.val <<< 8) ||| b5.val : Nat) : Int) ∧
      r.packet.data = payload ∧
      r.stream.unread = rest ∧
      r.stream.good = true := by
  obtain ⟨f0, f1, f2, f3, f4, f5, f6, f7, f8, f9⟩ :=
    SPPPrimaryHeader.memcpy_fields b0 b1 b2 b3 b4 b5
  have hdl : ({ q with primary_header := (SPPPrimaryHeader.memcpy [b0, b1, b2, b3, b4, b5]) }
      : SPPPacket).data_len = (((b4.val <<< 8) ||| b5.val : Nat) : Int) := by
    simp only [SPPPacket.data_len, f8, f9]
  refine ⟨_, operator_rshift_complete q [b0, b1, b2, b3, b4, b5] payload rest rfl
    (by rw [hdl, hn]; push_cast; rfl), rfl, ?_, ?_, ?_, ?_, ?_, ?_, hdl, rfl, rfl, rfl⟩
  · simp only [SPPPacket.version_number, f0, Nat.shiftRight_eq_div_pow, Nat.reducePow]
  · simp only [SPPPacket.type, f1, Nat.shiftRight_eq_div_pow, and_one, Nat.reducePow]
  · simp only [SPPPacket.sec_hdr_flag, f2, Nat.shiftRight_eq_div_pow, and_one, Nat.reducePow]
  · simp only [SPPPacket.app_id, f3, f4, and_seven]
  · simp only [SPPPacket.seq_flags, f5, Nat.shiftRight_eq_div_pow, Nat.reducePow]
  · simp only [SPPPacket.seq_cnt_or_name, f6, f7, and_x3f]

/-- C2 at the stream `08 01 00 00 00 02 AA BB CC` followed by one more byte. -/
theorem deserialize_decodes_witness :
    ∃ r : StreamCall IStream,
      operator_rshift (IStream.open_on
        ([0x08, 0x01, 0x00, 0x00, 0x00, 0x02] ++ [0xAA, 0xBB, 0xCC] ++ [0x55]))
        SPPPacket.default = r ∧
      r.packet.data = [0xAA, 0xBB, 0xCC] ∧ r.stream.unread = [0x55] := by
  obtain ⟨r, h⟩ := deserialize_decodes SPPPacket.default 0x08 0x01 0x00 0x00 0x00 0x02
    [0xAA, 0xBB, 0xCC] [0x55] (by decide)
  exact ⟨r, h.1, h.2.2.2.2.2.2.2.2.2.1, h.2.2.2.2.2.2.2.2.2.2.1⟩

/-- C3: round trip bytes -> packet -> bytes.  For every well-formed wire packet
`w` (header bytes `b0..b5` followed by exactly `((b4<<8)|b5)+1` payload bytes),
deserialising `w` into a default-constructed packet and serialising that packet
returns normally and writes a byte stream identical to `w`. -/
theorem roundtrip_bytes_packet_bytes (b0 b1 b2 b3 b4 b5 : Byte) (payload : List Byte)
    (hn : payload.length = (b4.val <<< 8 ||| b5.val) + 1) :
    (operator_rshift (IStream.open_on ([b0, b1, b2, b3, b4, b5] ++ payload))
      SPPPacket.default).thrown = none ∧
    (deserialize_then_serialize ([b0, b1, b2, b3, b4, b5] ++ payload)).thrown = none ∧
    (deserialize_then_serialize ([b0, b1, b2, b3, b4, b5] ++ payload)).stream.written
      = [b0, b1, b2, b3, b4, b5] ++ payload := by
  obtain ⟨_, _, _, _, _, _, _, _, f8, f9⟩ := SPPPrimaryHeader.memcpy_fields b0 b1 b2 b3 b4 b5
  have hb5 : b5.val < 256 := b5.isLt
  have hor := shl8_or b4.val b5.val hb5
  have hdl : ({ SPPPacket.default with
      primary_header := (SPPPrimaryHeader.memcpy [b0, b1, b2, b3, b4, b5]) }
      : SPPPacket).data_len = (((b4.val <<< 8) ||| b5.val : Nat) : Int) := by
    simp only [SPPPacket.data_len, f8, f9]
  have hr := operator_rshift_complete SPPPacket.default [b0, b1, b2, b3, b4, b5] payload [] rfl
    (by rw [hdl, hn]; push_cast; rfl)
  rw [List.append_nil] at hr
  have hself : (SPPPrimaryHeader.memcpy [b0, b1, b2, b3, b4, b5]).with_data_len
      (((payload.length - 1 : Nat) : Int)) = SPPPrimaryHeader.memcpy [b0, b1, b2, b3, b4, b5] :=
    SPPPrimaryHeader.with_data_len_self _ _ (by rw [f8, f9, hn, hor]; omega)
  have hcast : ((payload.length : Nat) : Int) - 1 = ((payload.length - 1 : Nat) : Int) := by
    omega
  simp only [deserialize_then_serialize, hr]
  rw [operator_lshift_dirty _ _ rfl]
  simp only [SPPDataField.size, hcast, hself, List.nil_append,
    SPPPrimaryHeader.bytes_memcpy [b0, b1, b2, b3, b4, b5] rfl, and_self]

/-- C3 at the nine bytes `08 01 00 00 00 02 AA BB CC`. -/
theorem roundtrip_bytes_packet_bytes_witness :
    (deserialize_then_serialize scenario).stream.written = scenario :=
  (roundtrip_bytes_packet_bytes 0x08 0x01 0x00 0x00 0x00 0x02 [0xAA, 0xBB, 0xCC]
    (by decide)).2.2

/-- C4, as claimed, fails: deserialising `08 01 00 00 00 02 AA BB CC` does not
give `type = 1` and `sec_hdr_flag = 0` together with the other claimed values. -/
theorem claimed_scenario_values_fail :
    ¬ ((operator_rshift (IStream.open_on scenario) SPPPacket.default).packet.version_number = 0 ∧
       (operator_rshift (IStream.open_on scenario) SPPPacket.default).packet.type = 1 ∧
       (operator_rshift (IStream.open_on scenario) SPPPacket.default).packet.sec_hdr_flag = 0 ∧
       (operator_rshift (IStream.open_on scenario) SPPPacket.default).packet.app_id = 1 ∧
       (operator_rshift (IStream.open_on scenario) SPPPacket.default).packet.seq_flags = 0 ∧
       (operator_rshift (IStream.open_on scenario) SPPPacket.default).packet.seq_cnt_or_name = 0 ∧
       (operator_rshift (IStream.open_on scenario) SPPPacket.default).packet.data_len = 2 ∧
       (operator_rshift (IStream.open_on scenario) SPPPacket.default).packet.data
         = [0xAA, 0xBB, 0xCC]) := by
  decide

/-- C4, amended: deserialising `08 01 00 00 00 02 AA BB CC` yields
`version_number = 0`, `type = 0`, `sec_hdr_flag = 1` (octet 0 is `0x08`, whose
only set bit is the secondary header flag), `app_id = 1`, `seq_flags = 0`,
`seq_cnt_or_name = 0`, `data_len = 2` and payload `AA BB CC`. -/
theorem scenario_fields :
    (operator_rshift (IStream.open_on scenario) SPPPacket.default).thrown = none ∧
    (operator_rshift (IStream.open_on scenario) SPPPacket.default).packet.version_number = 0 ∧
    (operator_rshift (IStream.open_on scenario) SPPPacket.default).packet.type = 0 ∧
    (operator_rshift (IStream.open_on scenario) SPPPacket.default).packet.sec_hdr_flag = 1 ∧
    (operator_rshift (IStream.open_on scenario) SPPPacket.default).packet.app_id = 1 ∧
    (operator_rshift (IStream.open_on scenario) SPPPacket.default).packet.seq_flags = 0 ∧
    (operator_rshift (IStream.open_on scenario) SPPPacket.default).packet.seq_cnt_or_name = 0 ∧
    (operator_rshift (IStream.open_on scenario) SPPPacket.default).packet.data_len = 2 ∧
    (operator_rshift (IStream.open_on scenario) SPPPacket.default).packet.data
      = [0xAA, 0xBB, 0xCC] := by
  decide

/-! ## The length convention -/

theorem Byte.ofNat_val (n : Nat) : (Byte.ofNat n).val = n % 256 := rfl

/-- Octets 4 and 5 of the memory image are the two halves of the length field. -/
theorem SPPPrimaryHeader.bytes_length_octets (h : SPPPrimaryHeader) :
    h.bytes[4]? = some (Byte.ofNat h._data_len_h.val) ∧
    h.bytes[5]? = some (Byte.ofNat h._data_len_l.val) := by
  have h1 : h._data_len_h.val < 256 := h._data_len_h.isLt
  have h2 : h._data_len_l.val < 256 := h._data_len_l.isLt
  simp only [bytes, unit2, List.getElem?_cons_succ, List.getElem?_cons_zero, Option.some.injEq,
    Fin.ext_iff, Byte.ofNat_val]
  omega

/-- C5: length convention.  For every packet and every buffer `s` of length `L`
with `1 ≤ L ≤ 65536`, writing `s` through the `data()` setter and then
serialising returns normally, leaves `data_len() = L - 1`, and octets 4 and 5 of
the bytes written are the big-endian encoding of `L - 1`. -/
theorem length_convention (p : SPPPacket) (s : List Byte)
    (hL1 : 1 ≤ s.length) (hL2 : s.length ≤ 65536) :
    (p.set_data s).thrown = none ∧
    (operator_lshift ⟨[]⟩ (p.set_data s).packet).thrown = none ∧
    (operator_lshift ⟨[]⟩ (p.set_data s).packet).packet.data_len = (s.length : Int) - 1 ∧
    (operator_lshift ⟨[]⟩ (p.set_data s).packet).stream.written[4]?
      = some (Byte.ofNat ((s.length - 1) / 256)) ∧
    (operator_lshift ⟨[]⟩ (p.set_data s).packet).stream.written[5]?
      = some (Byte.ofNat ((s.length - 1) % 256)) := by
  have hs : s ≠ [] := by intro h; simp [h] at hL1
  have hmin : min s.length SPP_MAX_DATA_LEN = s.length := by
    simp only [SPP_MAX_DATA_LEN]; omega
  rw [SPPPacket.set_data_nonempty _ _ hs, hmin, List.take_length]
  rw [operator_lshift_dirty _ _ rfl]
  have hcast : ((s.length : Nat) : Int) - 1 = ((s.length - 1 : Nat) : Int) := by omega
  simp only [SPPDataField.size, hcast, List.nil_append]
  refine ⟨trivial, trivial, ?_, ?_, ?_⟩
  · rw [SPPPacket.data_len_with_data_len, Nat.mod_eq_of_lt (by omega)]
  · rw [List.getElem?_append_left (by simp [SPPPrimaryHeader.length_bytes]),
      (SPPPrimaryHeader.bytes_length_octets _).1]
    simp only [SPPPrimaryHeader.with_data_len, val_store_len_h, Option.some.injEq, Fin.ext_iff,
      Byte.ofNat_val]
    omega
  · rw [List.getElem?_append_left (by simp [SPPPrimaryHeader.length_bytes]),
      (SPPPrimaryHeader.bytes_length_octets _).2]
    simp only [SPPPrimaryHeader.with_data_len, val_store_len_l, Option.some.injEq, Fin.ext_iff,
      Byte.ofNat_val, Nat.mod_mod]

/-- C5 at a one-byte payload: the length field and its two octets are `0`. -/
theorem length_convention_witness :
    (operator_lshift ⟨[]⟩ (SPPPacket.default.set_data [0x7f]).packet).packet.data_len = 0 ∧
    (operator_lshift ⟨[]⟩ (SPPPacket.default.set_data [0x7f]).packet).stream.written[4]?
      = some 0 ∧
    (operator_lshift ⟨[]⟩ (SPPPacket.default.set_data [0x7f]).packet).stream.written[5]?
      = some 0 :=
  have h := length_convention SPPPacket.default [0x7f] (by decide) (by decide)
  ⟨h.2.2.1, h.2.2.2.1, h.2.2.2.2⟩

/-! ## The `app_id()` setter -/

/-- C6: the claim fails at `x = 2047`.  The setter masks the high part with
`0x03`, two bits, where the bit-field `_app_id_h` has `APP_ID_LEN - 8 = 3`; writing
`2047` reads back `1023`, not `2047 mod 2048 = 2047`. -/
theorem app_id_write_2047 (p : SPPPacket) :
    (p.set_app_id 2047).app_id = 1023 ∧ (2047 : Int) % 2048 = 2047 := by
  constructor
  · simp only [SPPPacket.set_app_id, SPPPacket.app_id]
    decide
  · decide

/-- What the `app_id()` setter and getter compute on a non-negative value: the
value modulo `2 ^ 10`. -/
theorem SPPPacket.app_id_set_app_id (p : SPPPacket) (x : Nat) :
    (p.set_app_id (x : Int)).app_id = ((x % 1024 : Nat) : Int) := by
  have h3 : Int.land ((x : Int) >>> (8 : Nat)) 0x03 = (((x >>> 8) % 4 : Nat) : Int) := by
    show Int.land (((x >>> 8 : Nat) : Int)) ((3 : Nat) : Int) = _
    rw [int_land_ofNat, and_three]
  simp only [SPPPacket.set_app_id, SPPPacket.app_id, h3, int_land_xff,
    val_bitfield_store_ofNat, Nat.shiftRight_eq_div_pow, spp.APP_ID_LEN, Nat.reduceSub,
    Nat.reducePow]
  rw [shl8_or _ _ (by omega)]
  congr 1
  omega

/-! ## The `data_len()` and `data()` setters -/

/-- C7: the `data_len()` write couples header and payload.  For every packet and
every `len` with `0 ≤ len ≤ 65535`, the write returns normally, the data field
then has exactly `len + 1` bytes, `dirty_length` is clear and `data_len()` reads
back `len`, so that `data_len() + 1` is the data field length. -/
theorem data_len_write_couples (p : SPPPacket) (len : Int) (h0 : 0 ≤ len) (h1 : len ≤ 65535) :
    (p.set_data_len len).thrown = none ∧
    ((p.set_data_len len).packet.data.length : Int) = len + 1 ∧
    (p.set_data_len len).packet.dirty_length = false ∧
    (p.set_data_len len).packet.data_len = len ∧
    (p.set_data_len len).packet.data_len + 1
      = ((p.set_data_len len).packet.data_field.size : Int) := by
  rw [SPPPacket.set_data_len_returns _ _ (by omega)]
  obtain ⟨n, rfl⟩ := Int.eq_ofNat_of_zero_le h0
  have hdl := SPPPacket.data_len_with_data_len p.primary_header
    ⟨vector_resize p.data_field._data ((n : Int) + 1).toNat⟩ false n
  rw [Nat.mod_eq_of_lt (by omega)] at hdl
  simp only [SPPPacket.data, SPPDataField.size, length_vector_resize, hdl]
  refine ⟨trivial, ?_, trivial, trivial, ?_⟩ <;> omega

/-- C7 at `len = 258` on a default-constructed packet. -/
theorem data_len_write_couples_witness :
    ((SPPPacket.default.set_data_len 258).packet.data.length : Int) = 258 + 1 ∧
    (SPPPacket.default.set_data_len 258).packet.data_len = 258 :=
  have h := data_len_write_couples SPPPacket.default 258 (by decide) (by decide)
  ⟨h.2.1, h.2.2.2.1⟩

/-- C8: an empty payload write is rejected atomically.  For every packet, writing
the empty byte sequence through the `data()` setter throws `invalid_argument` and
leaves the packet (payload, every header field, `dirty_length`) as it was. -/
theorem empty_payload_write_rejected (p : SPPPacket) :
    (p.set_data []).thrown = some SPPError.invalid_argument ∧ (p.set_data []).packet = p := by
  rw [SPPPacket.set_data_empty]
  exact ⟨rfl, rfl⟩

/-- C9: a payload write copies and caps at 65536.  For every packet and every
non-empty byte sequence `s`, the `data()` setter returns normally, the stored
payload is the first `min(s.length, 65536)` bytes of `s` (so it has exactly that
many bytes, 65536 for a 70000-byte input) and `dirty_length` is set. -/
theorem payload_write_copies_and_caps (p : SPPPacket) (s : List Byte) (hs : s ≠ []) :
    (p.set_data s).thrown = none ∧
    (p.set_data s).packet.data = s.take (min s.length 65536) ∧
    (p.set_data s).packet.data.length = min s.length 65536 ∧
    (s.length = 70000 → (p.set_data s).packet.data = s.take 65536 ∧
      (p.set_data s).packet.data.length = 65536) ∧
    (p.set_data s).packet.dirty_length = true := by
  rw [SPPPacket.set_data_nonempty _ _ hs]
  simp only [SPPPacket.data, SPP_MAX_DATA_LEN, Nat.reducePow, List.length_take, true_and,
    and_true]
  refine ⟨by omega, fun h => ?_⟩
  rw [h]
  exact ⟨rfl, rfl⟩

/-- C9 at the three-byte input `AA BB CC`. -/
theorem payload_write_copies_and_caps_witness :
    (SPPPacket.default.set_data [0xAA, 0xBB, 0xCC]).packet.data = [0xAA, 0xBB, 0xCC] ∧
    (SPPPacket.default.set_data [0xAA, 0xBB, 0xCC]).packet.dirty_length = true :=
  have h := payload_write_copies_and_caps SPPPacket.default [0xAA, 0xBB, 0xCC] (by decide)
  ⟨h.2.1, h.2.2.2.2⟩

/-- C10: lazy synchronisation.  For every packet and every non-empty input, the
`data()` setter leaves the header, hence `data_len()` and every other header
field, as it was; on a default-constructed packet `data_len()` still returns `0`
after the write. -/
theorem payload_write_keeps_header (p : SPPPacket) (s : List Byte) (hs : s ≠ []) :
    (p.set_data s).packet.primary_header = p.primary_header ∧
    (p.set_data s).packet.data_len = p.data_len ∧
    (p.set_data s).packet.version_number = p.version_number ∧
    (p.set_data s).packet.type = p.type ∧
    (p.set_data s).packet.sec_hdr_flag = p.sec_hdr_flag ∧
    (p.set_data s).packet.app_id = p.app_id ∧
    (p.set_data s).packet.seq_flags = p.seq_flags ∧
    (p.set_data s).packet.seq_cnt_or_name = p.seq_cnt_or_name ∧
    (SPPPacket.default.set_data s).packet.data_len = 0 := by
  rw [SPPPacket.set_data_nonempty _ _ hs, SPPPacket.set_data_nonempty _ _ hs]
  refine ⟨rfl, rfl, rfl, rfl, rfl, rfl, rfl, rfl, ?_⟩
  show SPPPacket.default.data_len = 0
  decide

/-- C10 at a default-constructed packet given a three-byte payload: the length
field still reads `0`. -/
theorem payload_write_keeps_header_witness :
    (SPPPacket.default.set_data [0xAA, 0xBB, 0xCC]).packet.data_len = 0 :=
  (payload_write_keeps_header SPPPacket.default [0xAA, 0xBB, 0xCC] (by decide)).2.2.2.2.2.2.2.2

/-! ## The default-constructed packet -/

/-- C11: the claim fails at the default-constructed packet.  Its data field is
the empty vector `std::vector<std::byte>(0)`, of length `0`, not `>= 1`, and it
is still empty after a serialisation. -/
theorem default_data_field_empty :
    (run []).data.length = 0 ∧ (run [.serialize ⟨[]⟩]).data.length = 0 := by
  decide

theorem int_land_neg_one_xff : Int.land (-1) 0xff = 255 := by
  show ((Nat.ldiff 255 0 : Nat) : Int) = 255
  have h : Nat.ldiff 255 0 = 255 := by
    apply Nat.eq_of_testBit_eq
    intro i
    simp [Nat.testBit_ldiff]
  rw [h]
  rfl

/-- C12: the claim fails after serialising a default-constructed packet.  The
flag is clear, the data field has length `0` and the length field reads `65535`:
`data_field.size() - 1` wraps below zero and the setter stores `0xff`, `0xff`;
the bytes written are the header `00 00 00 00 FF FF` and no payload. -/
theorem serialized_default_length_field :
    (run [.serialize ⟨[]⟩]).dirty_length = false ∧
    (run [.serialize ⟨[]⟩]).data_field.size = 0 ∧
    (run [.serialize ⟨[]⟩]).data_len = 65535 ∧
    (operator_lshift ⟨[]⟩ SPPPacket.default).stream.written = [0, 0, 0, 0, 0xff, 0xff] := by
  have hw : SPPPacket.default.primary_header.with_data_len
      ((SPPPacket.default.data_field.size : Int) - 1)
      = { SPPPacket.default.primary_header with _data_len_h := 255, _data_len_l := 255 } := by
    have h1 : ((SPPPacket.default.data_field.size : Int) - 1) = -1 := by decide
    have h2 : ((-1 : Int) >>> (8 : Nat)) = -1 := by decide
    rw [h1]
    simp only [SPPPrimaryHeader.with_data_len, h2, int_land_neg_one_xff]
    decide
  have hd := operator_lshift_dirty ⟨[]⟩ SPPPacket.default rfl
  rw [hw] at hd
  simp only [run, List.foldl, Operation.apply, hd]
  decide

/-! ## Encode layout -/

theorem octet0_or (v : Fin 8) (t s : Fin 2) (a : Fin 8) :
    v.val <<< 5 ||| t.val <<< 4 ||| s.val <<< 3 ||| a.val
      = a.val + 8 * s.val + 16 * t.val + 32 * v.val := by
  revert v t s a
  decide

theorem octet2_or (f : Fin 4) (c : Fin 64) :
    f.val <<< 6 ||| c.val = c.val + 64 * f.val := by
  revert f c
  decide

theorem shl8_or_shr (a b : Nat) (hb : b < 256) : (a <<< 8 ||| b) >>> 8 = a := by
  rw [shl8_or a b hb, Nat.shiftRight_eq_div_pow]
  omega

theorem shl8_or_and (a b : Nat) (hb : b < 256) : (a <<< 8 ||| b) &&& 0xff = b := by
  rw [shl8_or a b hb, and_xff]
  omega

theorem Byte.ofNat_congr {a b : Nat} (h : a % 256 = b % 256) : Byte.ofNat a = Byte.ofNat b :=
  Fin.ext h

/-- The first four octets of the memory image, from the values the getters return. -/
theorem SPPPrimaryHeader.bytes_take_four (p : SPPPacket) :
    p.primary_header.bytes.take 4 =
      [Byte.ofNat (p.version_number.toNat <<< 5 ||| p.type.toNat <<< 4
          ||| p.sec_hdr_flag.toNat <<< 3 ||| (p.app_id.toNat >>> 8)),
       Byte.ofNat (p.app_id.toNat &&& 0xff),
       Byte.ofNat (p.seq_flags.toNat <<< 6 ||| (p.seq_cnt_or_name.toNat >>> 8)),
       Byte.ofNat (p.seq_cnt_or_name.toNat &&& 0xff)] := by
  obtain ⟨h0, h1, h2, h3, h4, h5, h6, h7, h8, h9⟩ := field_bounds p.primary_header
  simp only [SPPPacket.version_number, SPPPacket.type, SPPPacket.sec_hdr_flag, SPPPacket.app_id,
    SPPPacket.seq_flags, SPPPacket.seq_cnt_or_name, Int.toNat_natCast,
    shl8_or_shr _ _ h4, shl8_or_and _ _ h4, shl8_or_shr _ _ h7, shl8_or_and _ _ h7,
    octet0_or p.primary_header._version_number p.primary_header._type
      p.primary_header._sec_hdr_flag p.primary_header._app_id_h,
    octet2_or p.primary_header._seq_flags p.primary_header._seq_cnt_or_name_h]
  simp only [bytes, unit0, unit1, List.take_succ_cons, List.take_zero, List.cons.injEq,
    and_true, Nat.reducePow]
  refine ⟨?_, ?_, ?_, ?_⟩ <;> apply Byte.ofNat_congr <;> omega

theorem SPPPrimaryHeader.bytes_split (h : SPPPrimaryHeader) :
    h.bytes = h.bytes.take 4 ++ [Byte.ofNat h._data_len_h.val, Byte.ofNat h._data_len_l.val] := by
  have h1 : h._data_len_h.val < 256 := h._data_len_h.isLt
  have h2 : h._data_len_l.val < 256 := h._data_len_l.isLt
  simp only [bytes, unit2, List.take_succ_cons, List.take_zero, List.cons_append,
    List.nil_append, List.cons.injEq, and_true, true_and, Nat.reducePow]
  constructor <;> apply Byte.ofNat_congr <;> omega

/-- C13: encode layout.  For every packet the interface can produce whose
payload has length `L`, `1 ≤ L ≤ 65536`, `operator<<` returns normally and
writes exactly `6 + L` bytes, which is `size()`: the six header bytes
`[v<<5 | t<<4 | s<<3 | (a>>8), a & 0xff, f<<6 | (c>>8), c & 0xff, (L-1)>>8, (L-1) & 0xff]`
built from the values of the getters, then the payload bytes in order;
afterwards `dirty_length` is clear. -/
theorem encode_layout (P : SPPPacket) (hP : Reachable P)
    (hL1 : 1 ≤ P.data.length) (hL2 : P.data.length ≤ 65536) :
    (operator_lshift ⟨[]⟩ P).thrown = none ∧
    (operator_lshift ⟨[]⟩ P).stream.written =
      [Byte.ofNat (P.version_number.toNat <<< 5 ||| P.type.toNat <<< 4
          ||| P.sec_hdr_flag.toNat <<< 3 ||| (P.app_id.toNat >>> 8)),
       Byte.ofNat (P.app_id.toNat &&& 0xff),
       Byte.ofNat (P.seq_flags.toNat <<< 6 ||| (P.seq_cnt_or_name.toNat >>> 8)),
       Byte.ofNat (P.seq_cnt_or_name.toNat &&& 0xff),
       Byte.ofNat ((P.data.length - 1) >>> 8),
       Byte.ofNat ((P.data.length - 1) &&& 0xff)] ++ P.data ∧
    (operator_lshift ⟨[]⟩ P).stream.written.length = 6 + P.data.length ∧
    (operator_lshift ⟨[]⟩ P).stream.written.length = P.size ∧
    (operator_lshift ⟨[]⟩ P).packet.dirty_length = false := by
  have hsync := hP.synced
  simp only [SPPPacket.data] at hL1 hL2 ⊢
  have key : ∀ h : SPPPrimaryHeader, h.bytes.take 4 = P.primary_header.bytes.take 4 →
      h._data_len_h.val * 256 + h._data_len_l.val + 1 = P.data_field._data.length →
      ([] ++ h.bytes ++ P.data_field._data) =
      [Byte.ofNat (P.version_number.toNat <<< 5 ||| P.type.toNat <<< 4
          ||| P.sec_hdr_flag.toNat <<< 3 ||| (P.app_id.toNat >>> 8)),
       Byte.ofNat (P.app_id.toNat &&& 0xff),
       Byte.ofNat (P.seq_flags.toNat <<< 6 ||| (P.seq_cnt_or_name.toNat >>> 8)),
       Byte.ofNat (P.seq_cnt_or_name.toNat &&& 0xff),
       Byte.ofNat ((P.data_field._data.length - 1) >>> 8),
       Byte.ofNat ((P.data_field._data.length - 1) &&& 0xff)] ++ P.data_field._data := by
    intro h h4 hlen
    have h1 : h._data_len_h.val < 256 := h._data_len_h.isLt
    have h2 : h._data_len_l.val < 256 := h._data_len_l.isLt
    rw [List.nil_append, h.bytes_split, h4, SPPPrimaryHeader.bytes_take_four P]
    simp only [List.cons_append, List.nil_append, List.cons.injEq, true_and, and_true,
      Nat.shiftRight_eq_div_pow, and_xff, Nat.reducePow]
    constructor <;> apply Byte.ofNat_congr <;> omega
  cases hd : P.dirty_length with
  | false =>
    have hlen := hsync hd hL1 (by simpa [SPP_MAX_DATA_LEN, SPPDataField.size] using hL2)
    rw [P.data_len_eq] at hlen
    simp only [SPPDataField.size] at hlen
    rw [operator_lshift_clean _ _ hd]
    refine ⟨rfl, key _ rfl (by omega), ?_, ?_, hd⟩
    · simp [SPPPrimaryHeader.length_bytes]
    · simp [SPPPrimaryHeader.length_bytes, SPPPacket.size, SPPDataField.size]
  | true =>
    have hcast : ((P.data_field.size : Nat) : Int) - 1 = ((P.data_field._data.length - 1 : Nat) : Int) := by
      simp only [SPPDataField.size]; omega
    rw [operator_lshift_dirty _ _ hd, hcast]
    refine ⟨rfl, key _ rfl ?_, ?_, ?_, rfl⟩
    · simp only [SPPPrimaryHeader.with_data_len, val_store_len_h, val_store_len_l]
      omega
    · simp [SPPPrimaryHeader.length_bytes]
    · simp [SPPPrimaryHeader.length_bytes, SPPPacket.size, SPPDataField.size]

/-- C13 at a default packet given the payload `AA BB CC`: nine bytes are written. -/
theorem encode_layout_witness :
    (operator_lshift ⟨[]⟩
      (SPPPacket.default.set_data [0xAA, 0xBB, 0xCC]).packet).stream.written.length = 6 + 3 :=
  (encode_layout (SPPPacket.default.set_data [0xAA, 0xBB, 0xCC]).packet
    (Reachable.data _ _ Reachable.default) (by decide) (by decide)).2.2.1

/-! ## Header field writes -/

theorem cast_val_bitfield_store (w : Nat) (x : Int) :
    (((bitfield_store w x).val : Nat) : Int) = x % ((2 ^ w : Nat) : Int) := by
  have hpos : (0 : Int) < ((2 ^ w : Nat) : Int) := by exact_mod_cast Nat.two_pow_pos w
  have h1 := Int.emod_nonneg x (ne_of_gt hpos)
  simp only [bitfield_store]
  omega

theorem int_land_x3f (m : Nat) : Int.land (m : Int) 0x3f = ((m % 64 : Nat) : Int) := by
  show Int.land (m : Int) ((63 : Nat) : Int) = _
  rw [int_land_ofNat, and_x3f]

/-- C14: width truncation of the remaining header fields.  For every packet and
every integer `x ≥ 0`, reading a field after writing `x` to it returns
`x mod 2^w`, with `w = 3` for `version_number`, `1` for `type`, `1` for
`sec_hdr_flag`, `2` for `seq_flags` and `14` for `seq_cnt_or_name`; the setters
are total, no write fails. -/
theorem width_truncation (p : SPPPacket) (x : Int) (hx : 0 ≤ x) :
    (p.set_version_number x).version_number = x % 2 ^ 3 ∧
    (p.set_type x).type = x % 2 ^ 1 ∧
    (p.set_sec_hdr_flag x).sec_hdr_flag = x % 2 ^ 1 ∧
    (p.set_seq_flags x).seq_flags = x % 2 ^ 2 ∧
    (p.set_seq_cnt_or_name x).seq_cnt_or_name = x % 2 ^ 14 := by
  refine ⟨?_, ?_, ?_, ?_, ?_⟩
  · simp only [SPPPacket.set_version_number, SPPPacket.version_number, cast_val_bitfield_store]
    rfl
  · simp only [SPPPacket.set_type, SPPPacket.type, cast_val_bitfield_store]
    rfl
  · simp only [SPPPacket.set_sec_hdr_flag, SPPPacket.sec_hdr_flag, cast_val_bitfield_store]
    rfl
  · simp only [SPPPacket.set_seq_flags, SPPPacket.seq_flags, cast_val_bitfield_store]
    rfl
  · obtain ⟨n, rfl⟩ := Int.eq_ofNat_of_zero_le hx
    simp only [SPPPacket.set_seq_cnt_or_name, SPPPacket.seq_cnt_or_name, int_shr_ofNat,
      int_land_x3f, int_land_xff, val_bitfield_store_ofNat, Nat.shiftRight_eq_div_pow,
      spp.SEQ_CNT_OR_NAME_LEN, Nat.reduceSub, Nat.reducePow]
    rw [shl8_or _ _ (by omega)]
    omega

/-- C14 at `x = 16385 = 2^14 + 1`. -/
theorem width_truncation_witness :
    (SPPPacket.default.set_version_number 16385).version_number = 1 ∧
    (SPPPacket.default.set_seq_cnt_or_name 16385).seq_cnt_or_name = 1 :=
  have h := width_truncation SPPPacket.default 16385 (by decide)
  ⟨h.1.trans (by decide), h.2.2.2.2.trans (by decide)⟩

/-- C20: header field writes do not disturb their neighbours.  For every packet
and every integer `x`, writing `x` to one of `version_number`, `type`,
`sec_hdr_flag`, `app_id`, `seq_flags`, `seq_cnt_or_name` leaves the values read
from every other header field (`data_len` included), the payload bytes and
`dirty_length` unchanged. -/
theorem field_writes_frame (p : SPPPacket) (x : Int) :
    ((p.set_version_number x).type = p.type ∧
      (p.set_version_number x).sec_hdr_flag = p.sec_hdr_flag ∧
      (p.set_version_number x).app_id = p.app_id ∧
      (p.set_version_number x).seq_flags = p.seq_flags ∧
      (p.set_version_number x).seq_cnt_or_name = p.seq_cnt_or_name ∧
      (p.set_version_number x).data_len = p.data_len ∧
      (p.set_version_number x).data = p.data ∧
      (p.set_version_number x).dirty_length = p.dirty_length) ∧
    ((p.set_type x).version_number = p.version_number ∧
      (p.set_type x).sec_hdr_flag = p.sec_hdr_flag ∧
      (p.set_type x).app_id = p.app_id ∧
      (p.set_type x).seq_flags = p.seq_flags ∧
      (p.set_type x).seq_cnt_or_name = p.seq_cnt_or_name ∧
      (p.set_type x).data_len = p.data_len ∧
      (p.set_type x).data = p.data ∧
      (p.set_type x).dirty_length = p.dirty_length) ∧
    ((p.set_sec_hdr_flag x).version_number = p.version_number ∧
      (p.set_sec_hdr_flag x).type = p.type ∧
      (p.set_sec_hdr_flag x).app_id = p.app_id ∧
      (p.set_sec_hdr_flag x).seq_flags = p.seq_flags ∧
      (p.set_sec_hdr_flag x).seq_cnt_or_name = p.seq_cnt_or_name ∧
      (p.set_sec_hdr_flag x).data_len = p.data_len ∧
      (p.set_sec_hdr_flag x).data = p.data ∧
      (p.set_sec_hdr_flag x).dirty_length = p.dirty_length) ∧
    ((p.set_app_id x).version_number = p.version_number ∧
      (p.set_app_id x).type = p.type ∧
      (p.set_app_id x).sec_hdr_flag = p.sec_hdr_flag ∧
      (p.set_app_id x).seq_flags = p.seq_flags ∧
      (p.set_app_id x).seq_cnt_or_name = p.seq_cnt_or_name ∧
      (p.set_app_id x).data_len = p.data_len ∧
      (p.set_app_id x).data = p.data ∧
      (p.set_app_id x).dirty_length = p.dirty_length) ∧
    ((p.set_seq_flags x).version_number = p.version_number ∧
      (p.set_seq_flags x).type = p.type ∧
      (p.set_seq_flags x).sec_hdr_flag = p.sec_hdr_flag ∧
      (p.set_seq_flags x).app_id = p.app_id ∧
      (p.set_seq_flags x).seq_cnt_or_name = p.seq_cnt_or_name ∧
      (p.set_seq_flags x).data_len = p.data_len ∧
      (p.set_seq_flags x).data = p.data ∧
      (p.set_seq_flags x).dirty_length = p.dirty_length) ∧
    ((p.set_seq_cnt_or_name x).version_number = p.version_number ∧
      (p.set_seq_cnt_or_name x).type = p.type ∧
      (p.set_seq_cnt_or_name x).sec_hdr_flag = p.sec_hdr_flag ∧
      (p.set_seq_cnt_or_name x).app_id = p.app_id ∧
      (p.set_seq_cnt_or_name x).seq_flags = p.seq_flags ∧
      (p.set_seq_cnt_or_name x).data_len = p.data_len ∧
      (p.set_seq_cnt_or_name x).data = p.data ∧
      (p.set_seq_cnt_or_name x).dirty_length = p.dirty_length) :=
  ⟨⟨rfl, rfl, rfl, rfl, rfl, rfl, rfl, rfl⟩, ⟨rfl, rfl, rfl, rfl, rfl, rfl, rfl, rfl⟩,
   ⟨rfl, rfl, rfl, rfl, rfl, rfl, rfl, rfl⟩, ⟨rfl, rfl, rfl, rfl, rfl, rfl, rfl, rfl⟩,
   ⟨rfl, rfl, rfl, rfl, rfl, rfl, rfl, rfl⟩, ⟨rfl, rfl, rfl, rfl, rfl, rfl, rfl, rfl⟩⟩

/-! ## Deserialisation of incomplete input -/

theorem IStream.read_short (unread dst : List Byte) (n : Nat) (hn : unread.length < n) :
    ({ unread := unread, failbit := false, eofbit := false } : IStream).read dst n =
      (unread ++ dst.drop unread.length, { unread := [], failbit := true, eofbit := true }) := by
  simp [IStream.read, IStream.good, Nat.not_le.mpr hn, copy_n]

theorem IStream.read_failed (dst : List Byte) (n : Nat) :
    ({ unread := [], failbit := true, eofbit := true } : IStream).read dst n =
      (dst, { unread := [], failbit := true, eofbit := true }) := by
  simp [IStream.read, IStream.good]

theorem vector_resize_nil (n : Nat) : vector_resize [] n = List.replicate n 0 := by
  simp [vector_resize]

/-- A stream that ends inside the header: the header is copied from the bytes
read padded with zero bytes, and the data field is filled with zero bytes. -/
theorem operator_rshift_short_header (q : SPPPacket) (bs : List Byte) (hb : bs.length < 6) :
    operator_rshift (IStream.open_on bs) q =
      { stream := { unread := [], failbit := true, eofbit := true }
        packet :=
          { primary_header := SPPPrimaryHeader.memcpy (bs ++ List.replicate (6 - bs.length) 0)
            data_field := ⟨List.replicate
              (({ q with primary_header :=
                  (SPPPrimaryHeader.memcpy (bs ++ List.replicate (6 - bs.length) 0)) }
                : SPPPacket).data_len + 1).toNat 0⟩
            dirty_length := q.dirty_length }
        thrown := none } := by
  rw [operator_rshift_returns, IStream.open_on, IStream.read_short _ _ _ hb]
  simp only [List.drop_replicate, IStream.read_failed, vector_resize_nil]
  rw [copy_n_full _ _ _ (by rw [length_vector_resize])]
  simp

/-- A stream that holds the header but ends inside the payload: the data field
holds the payload bytes read, padded with zero bytes to the declared length. -/
theorem operator_rshift_short_payload (q : SPPPacket) (hdr avail : List Byte)
    (hh : hdr.length = 6)
    (ha : avail.length <
      (({ q with primary_header := (SPPPrimaryHeader.memcpy hdr) } : SPPPacket).data_len
        + 1).toNat) :
    operator_rshift (IStream.open_on (hdr ++ avail)) q =
      { stream := { unread := [], failbit := true, eofbit := true }
        packet :=
          { primary_header := SPPPrimaryHeader.memcpy hdr
            data_field := ⟨avail ++ List.replicate
              ((({ q with primary_header := (SPPPrimaryHeader.memcpy hdr) }
                : SPPPacket).data_len + 1).toNat - avail.length) 0⟩
            dirty_length := q.dirty_length }
        thrown := none } := by
  have hr1 : (IStream.open_on (hdr ++ avail)).read (List.replicate 6 0) 6 =
      (hdr, { unread := avail, failbit := false, eofbit := false }) := by
    rw [IStream.open_on, IStream.read_fresh _ _ _ (by simp [hh]), copy_n_full _ _ _ (by simp)]
    simp [← hh]
  rw [operator_rshift_returns, hr1]
  simp only
  rw [IStream.read_short _ _ _ ha, vector_resize_nil, List.drop_replicate]
  rw [copy_n_full _ _ _ (by rw [length_vector_resize])]
  simp only [List.take_append_eq_append_take, List.take_replicate]
  congr 3
  rw [List.take_of_length_le (by omega)]
  congr 2
  omega

theorem SPPPacket.data_len_memcpy (q : SPPPacket) (b0 b1 b2 b3 b4 b5 : Byte) :
    ({ q with primary_header := (SPPPrimaryHeader.memcpy [b0, b1, b2, b3, b4, b5]) }
      : SPPPacket).data_len = (((b4.val <<< 8) ||| b5.val : Nat) : Int) := by
  obtain ⟨_, _, _, _, _, _, _, _, f8, f9⟩ := SPPPrimaryHeader.memcpy_fields b0 b1 b2 b3 b4 b5
  simp only [SPPPacket.data_len, f8, f9]

/-- C15: deserialize signals incomplete input.  On a readable stream over the
bytes `bs`, `operator>>` leaves the stream truthy exactly when `bs` holds six
header bytes `b0..b5` and at least `((b4<<8)|b5)+1` bytes after them; otherwise
it leaves `failbit` set, so the stream is falsy, the condition on which the read
loop of `sppunpack` stops.  In particular the empty stream is left falsy. -/
theorem deserialize_signals_incomplete (q : SPPPacket) (bs : List Byte) :
    ((operator_rshift (IStream.open_on bs) q).stream.truthy = true ↔
      ∃ (b0 b1 b2 b3 b4 b5 : Byte) (rest : List Byte),
        bs = [b0, b1, b2, b3, b4, b5] ++ rest ∧ (b4.val <<< 8 ||| b5.val) + 1 ≤ rest.length) ∧
    ((operator_rshift (IStream.open_on bs) q).stream.truthy = false ↔
      (operator_rshift (IStream.open_on bs) q).stream.failbit = true) ∧
    (operator_rshift (IStream.open_on []) q).stream.truthy = false := by
  refine ⟨⟨?_, ?_⟩, by simp [IStream.truthy], ?_⟩
  · intro ht
    by_cases hb : bs.length < 6
    · rw [operator_rshift_short_header q bs hb] at ht
      simp [IStream.truthy] at ht
    · match bs, hb with
      | b0 :: b1 :: b2 :: b3 :: b4 :: b5 :: rest, _ =>
        refine ⟨b0, b1, b2, b3, b4, b5, rest, rfl, ?_⟩
        by_contra hr
        have hdl := SPPPacket.data_len_memcpy q b0 b1 b2 b3 b4 b5
        have := operator_rshift_short_payload q [b0, b1, b2, b3, b4, b5] rest rfl
          (by rw [hdl]; omega)
        rw [show b0 :: b1 :: b2 :: b3 :: b4 :: b5 :: rest = [b0, b1, b2, b3, b4, b5] ++ rest
          from rfl, this] at ht
        simp [IStream.truthy] at ht
      | [], h => simp at h
      | [_], h => simp at h
      | [_, _], h => simp at h
      | [_, _, _], h => simp at h
      | [_, _, _, _], h => simp at h
      | [_, _, _, _, _], h => simp at h
  · rintro ⟨b0, b1, b2, b3, b4, b5, rest, rfl, hr⟩
    have hdl := SPPPacket.data_len_memcpy q b0 b1 b2 b3 b4 b5
    have := operator_rshift_complete q [b0, b1, b2, b3, b4, b5]
      (rest.take ((b4.val <<< 8 ||| b5.val) + 1)) (rest.drop ((b4.val <<< 8 ||| b5.val) + 1)) rfl
      (by rw [hdl, List.length_take, Nat.min_eq_left hr]; push_cast; rfl)
    rw [List.append_assoc, List.take_append_drop] at this
    rw [this]
    rfl
  · rw [operator_rshift_short_header q [] (by decide)]
    rfl

/-- C16, as claimed, fails: deserialising the empty stream into the packet of the
worked example (`sec_hdr_flag = 1`, `app_id = 1`, `data_len = 2`, payload
`AA BB CC`) does not leave its header fields and payload as they were. -/
theorem failed_deserialize_not_atomic :
    Truncated [] ∧
    ¬ ((operator_rshift (IStream.open_on []) scenario_packet).packet.version_number
          = scenario_packet.version_number ∧
       (operator_rshift (IStream.open_on []) scenario_packet).packet.type
          = scenario_packet.type ∧
       (operator_rshift (IStream.open_on []) scenario_packet).packet.sec_hdr_flag
          = scenario_packet.sec_hdr_flag ∧
       (operator_rshift (IStream.open_on []) scenario_packet).packet.app_id
          = scenario_packet.app_id ∧
       (operator_rshift (IStream.open_on []) scenario_packet).packet.seq_flags
          = scenario_packet.seq_flags ∧
       (operator_rshift (IStream.open_on []) scenario_packet).packet.seq_cnt_or_name
          = scenario_packet.seq_cnt_or_name ∧
       (operator_rshift (IStream.open_on []) scenario_packet).packet.data_len
          = scenario_packet.data_len ∧
       (operator_rshift (IStream.open_on []) scenario_packet).packet.data
          = scenario_packet.data) := by
  decide

/-- C16, amended: on a readable stream over `bs` that ends before the six header
bytes or the declared payload bytes are read, `operator>>` returns normally,
leaves the stream falsy and changes the packet: the header is copied from the
bytes read padded with zero bytes, the payload becomes the payload bytes read
padded with zero bytes to the declared length; only `dirty_length` is kept. -/
theorem failed_deserialize_overwrites (q : SPPPacket) (bs : List Byte) (h : Truncated bs) :
    (operator_rshift (IStream.open_on bs) q).thrown = none ∧
    (operator_rshift (IStream.open_on bs) q).stream.truthy = false ∧
    (operator_rshift (IStream.open_on bs) q).packet =
      { primary_header := SPPPrimaryHeader.memcpy (header_read bs)
        data_field := ⟨bs.drop 6 ++ List.replicate (declared_length bs - (bs.drop 6).length) 0⟩
        dirty_length := q.dirty_length } := by
  by_cases hb : bs.length < 6
  · have h1 : header_read bs = bs ++ List.replicate (6 - bs.length) 0 := by
      simp only [header_read, List.take_of_length_le (Nat.le_of_lt hb)]
    have h2 : bs.drop 6 = [] := List.drop_eq_nil_of_le (Nat.le_of_lt hb)
    rw [operator_rshift_short_header q bs hb, h2]
    refine ⟨rfl, rfl, ?_⟩
    simp only [declared_length, h1, List.nil_append, List.length_nil, Nat.sub_zero]
    rfl
  · have hdrop : (bs.drop 6).length < declared_length bs := by
      rcases h with h | h
      · exact absurd h hb
      · exact h
    have h1 : header_read bs = bs.take 6 := by
      simp only [header_read, Nat.sub_eq_zero_of_le (Nat.not_lt.mp hb), List.replicate_zero,
        List.append_nil]
    have hsp := operator_rshift_short_payload q (bs.take 6) (bs.drop 6)
      (by rw [List.length_take]; omega) (by rw [← h1]; exact hdrop)
    rw [List.take_append_drop] at hsp
    rw [hsp]
    refine ⟨rfl, rfl, ?_⟩
    simp only [declared_length, h1]
    rfl

/-- C16 amended, at the empty stream and the packet of the worked example: the
header is zeroed and the payload becomes the single byte `00`. -/
theorem failed_deserialize_overwrites_witness :
    (operator_rshift (IStream.open_on []) scenario_packet).packet.data = [0] ∧
    (operator_rshift (IStream.open_on []) scenario_packet).packet.app_id = 0 := by
  have h := (failed_deserialize_overwrites scenario_packet [] (by decide)).2.2
  rw [h]
  decide

/-! ## The byte iterators -/

/-- The packet iterator after `k` single steps from `begin()`: a header iterator
for the first `6 * sizeof(SPPPrimaryHeader) = 36` positions, then a data iterator. -/
theorem SPPPacket.Iterator.iterate_next (p : SPPPacket) (k : Nat) :
    (SPPPacket.Iterator.next p)^[k] p.begin_ =
      if k < 36 then .header ⟨k⟩ else .data (k - 36) := by
  induction k with
  | zero => rfl
  | succ k ih =>
    rw [Function.iterate_succ_apply', ih]
    by_cases h1 : k < 35
    · have h2 : k < 36 := by omega
      have h3 : k + 1 < 36 := by omega
      have h4 : k + 1 ≠ 36 := by omega
      simp [h2, h3, h4, SPPPacket.Iterator.next, SPPPrimaryHeader.Iterator.next,
        SPPPrimaryHeader.end_, SPPPrimaryHeader.sizeof]
    · by_cases h2 : k = 35
      · subst h2
        simp [SPPPacket.Iterator.next, SPPPrimaryHeader.Iterator.next, SPPPrimaryHeader.end_,
          SPPPrimaryHeader.sizeof]
      · have h3 : ¬ k < 36 := by omega
        have h4 : ¬ k + 1 < 36 := by omega
        simp only [h3, h4, if_false, SPPPacket.Iterator.next]
        congr 1
        omega

/-- Stepping from `begin()` reaches `end()` after `36 + data_field.size()` steps
and not before. -/
theorem SPPPacket.Iterator.steps_to_end (p : SPPPacket) :
    (SPPPacket.Iterator.next p)^[36 + p.data_field.size] p.begin_ = p.end_ ∧
    ∀ k, k < 36 + p.data_field.size → (SPPPacket.Iterator.next p)^[k] p.begin_ ≠ p.end_ := by
  constructor
  · rw [SPPPacket.Iterator.iterate_next]
    simp [SPPPacket.end_]
  · intro k hk
    rw [SPPPacket.Iterator.iterate_next]
    by_cases h : k < 36
    · simp [h, SPPPacket.end_]
    · simp only [h, if_false, SPPPacket.end_, ne_eq, SPPPacket.Iterator.data.injEq]
      omega

/-- C17: the claim fails on every packet.  `SPPPrimaryHeader::end()` is
`this + 6` on a `SPPPrimaryHeader*`, 36 bytes past `begin()`, so the header range
has 36 positions, not 6, and the packet iterator needs `36 + L` steps, not
`6 + L`, to reach `end()`.  On the packet of the worked example it yields the 6
header bytes, 30 reads outside the header object, then the 3 payload bytes. -/
theorem iteration_overruns_header (p : SPPPacket) :
    p.primary_header.end_.m_ptr - p.primary_header.begin_.m_ptr = 36 ∧
    (SPPPacket.Iterator.next p)^[36 + p.data.length] p.begin_ = p.end_ ∧
    (∀ k, k < 36 + p.data.length → (SPPPacket.Iterator.next p)^[k] p.begin_ ≠ p.end_) ∧
    (SPPPacket.Iterator.next scenario_packet)^[6 + 3] scenario_packet.begin_
      ≠ scenario_packet.end_ ∧
    SPPPacket.Iterator.collect scenario_packet (36 + 3) scenario_packet.begin_ =
      [some 0x08, some 0x01, some 0x00, some 0x00, some 0x00, some 0x02]
        ++ List.replicate 30 none ++ [some 0xAA, some 0xBB, some 0xCC] := by
  refine ⟨rfl, (SPPPacket.Iterator.steps_to_end p).1, (SPPPacket.Iterator.steps_to_end p).2,
    ?_, ?_⟩
  · exact (SPPPacket.Iterator.steps_to_end scenario_packet).2 _ (by decide)
  · decide

theorem SPPPacket.Iterator.add_loop_spec (p : SPPPacket) (m : Nat) :
    ∀ (i : SPPPacket.Iterator) (remaining : Nat),
      (SPPPacket.Iterator.next p)^[remaining] i = p.end_ →
      (∀ j, j < remaining → (SPPPacket.Iterator.next p)^[j] i ≠ p.end_) →
      SPPPacket.Iterator.add_loop p m i = (SPPPacket.Iterator.next p)^[min m remaining] i := by
  induction m with
  | zero => intro i remaining _ _; simp [SPPPacket.Iterator.add_loop]
  | succ m ih =>
    intro i remaining hend hmin
    unfold SPPPacket.Iterator.add_loop
    by_cases hi : i = p.end_
    · have hr : remaining = 0 := by
        by_contra h0
        exact hmin 0 (Nat.pos_of_ne_zero h0) hi
      subst hr
      have hi' : i = SPPPacket.Iterator.data p.data_field.size := hi
      simp [hi']
    · have hi' : ¬ i = SPPPacket.Iterator.data p.data_field.size := hi
      obtain ⟨r, rfl⟩ : ∃ r, remaining = r + 1 := by
        cases remaining with
        | zero => exact absurd hend hi
        | succ r => exact ⟨r, rfl⟩
      rw [if_neg hi', ih (i.next p) r (by rw [← Function.iterate_succ_apply]; exact hend)
        (fun j hj => by rw [← Function.iterate_succ_apply]; exact hmin (j + 1) (by omega))]
      rw [← Function.iterate_succ_apply, Nat.succ_min_succ]

/-- C18: bounded advance of the packet iterator.  For every packet, every
position `i` reached from `begin()` by `k` single steps and every count
`n ≥ 0`, with `remaining` the number of single steps from `i` to `end()`,
`i + n` is the position reached from `i` by `min(n, remaining)` single steps; an
iterator at the end stays there, and `i + n` is never past `end()`. -/
theorem bounded_advance (p : SPPPacket) (k : Nat) (n : Int) (_hn : 0 ≤ n) (remaining : Nat)
    (hend : (SPPPacket.Iterator.next p)^[remaining] ((SPPPacket.Iterator.next p)^[k] p.begin_)
      = p.end_)
    (hmin : ∀ j, j < remaining →
      (SPPPacket.Iterator.next p)^[j] ((SPPPacket.Iterator.next p)^[k] p.begin_) ≠ p.end_) :
    SPPPacket.Iterator.add p ((SPPPacket.Iterator.next p)^[k] p.begin_) n =
      (SPPPacket.Iterator.next p)^[min n.toNat remaining]
        ((SPPPacket.Iterator.next p)^[k] p.begin_) ∧
    (remaining = 0 →
      SPPPacket.Iterator.add p ((SPPPacket.Iterator.next p)^[k] p.begin_) n = p.end_) ∧
    ∃ j, j ≤ remaining ∧
      SPPPacket.Iterator.add p ((SPPPacket.Iterator.next p)^[k] p.begin_) n =
        (SPPPacket.Iterator.next p)^[j] ((SPPPacket.Iterator.next p)^[k] p.begin_) := by
  have hs := SPPPacket.Iterator.add_loop_spec p n.toNat _ remaining hend hmin
  refine ⟨hs, ?_, ⟨min n.toNat remaining, Nat.min_le_right _ _, hs⟩⟩
  intro h0
  subst h0
  rw [SPPPacket.Iterator.add, hs, Nat.min_zero]
  exact hend

/-- C18 on the packet of the worked example: `begin() + 100` is `end()`, reached
after the 39 single steps that remain. -/
theorem bounded_advance_witness :
    SPPPacket.Iterator.add scenario_packet scenario_packet.begin_ 100 = scenario_packet.end_ := by
  have h := bounded_advance scenario_packet 0 100 (by decide)
    (36 + scenario_packet.data_field.size)
    (SPPPacket.Iterator.steps_to_end scenario_packet).1
    (SPPPacket.Iterator.steps_to_end scenario_packet).2
  rw [Function.iterate_zero_apply] at h
  rw [h.1, show min (100 : Int).toNat (36 + scenario_packet.data_field.size)
    = 36 + scenario_packet.data_field.size by decide]
  exact (SPPPacket.Iterator.steps_to_end scenario_packet).1

/-! ## Construction from a raw buffer -/

/-- C19: the claim fails on the buffer `08 01 00 00 00 02 AA BB CC`.  The
constructor copies the header as `operator>>` does and sizes the data field to
three bytes, but its last `memcpy` has the vector object `&data_field._data` as
destination, not its elements: the payload `AA BB CC` lands on the vector's own
representation and the three elements stay as `resize` left them, zero, where
`operator>>` yields `AA BB CC`. -/
theorem raw_constructor_misses_payload :
    (SPPPacket.from_buffer scenario).thrown = none ∧
    (SPPPacket.from_buffer scenario).packet.primary_header
      = (operator_rshift (IStream.open_on scenario) SPPPacket.default).packet.primary_header ∧
    (SPPPacket.from_buffer scenario).packet.data = [0, 0, 0] ∧
    (SPPPacket.from_buffer scenario).written_over_vector_object = [0xAA, 0xBB, 0xCC] ∧
    (operator_rshift (IStream.open_on scenario) SPPPacket.default).packet.data
      = [0xAA, 0xBB, 0xCC] := by
  decide

/-! ## Sequences of operations -/

theorem run_append (ops : List Operation) (op : Operation) :
    run (ops ++ [op]) = op.apply (run ops) := by
  simp [run, List.foldl_append]

theorem run_reachable (ops : List Operation) : Reachable (run ops) := by
  induction ops using List.reverseRecOn with
  | nil => exact Reachable.default
  | append_singleton ops op ih =>
    rw [run_append]
    cases op with
    | version_number x => exact Reachable.version_number _ x ih
    | type x => exact Reachable.type _ x ih
    | sec_hdr_flag x => exact Reachable.sec_hdr_flag _ x ih
    | app_id x => exact Reachable.app_id _ x ih
    | seq_flags x => exact Reachable.seq_flags _ x ih
    | seq_cnt_or_name x => exact Reachable.seq_cnt_or_name _ x ih
    | data_len len => exact Reachable.data_len _ len ih
    | data s => exact Reachable.data _ s ih
    | serialize output => exact Reachable.serialize _ output ih
    | deserialize input => exact Reachable.deserialize _ input ih

/-- Serialisation leaves the data field as it is. -/
theorem operator_lshift_data_field (out : OStream) (p : SPPPacket) :
    (operator_lshift out p).packet.data_field = p.data_field := by
  cases hd : p.dirty_length with
  | false => rw [operator_lshift_clean _ _ hd]
  | true => rw [operator_lshift_dirty _ _ hd]

/-- An operation with its argument in range keeps a non-empty data field
non-empty and a data field of at most 65536 bytes within that bound. -/
theorem Operation.apply_size (p : SPPPacket) (op : Operation) (hop : op.in_range) :
    (1 ≤ p.data_field.size → 1 ≤ (op.apply p).data_field.size) ∧
    (p.data_field.size ≤ 65536 → (op.apply p).data_field.size ≤ 65536) := by
  cases op with
  | version_number x => exact ⟨id, id⟩
  | type x => exact ⟨id, id⟩
  | sec_hdr_flag x => exact ⟨id, id⟩
  | app_id x => exact ⟨id, id⟩
  | seq_flags x => exact ⟨id, id⟩
  | seq_cnt_or_name x => exact ⟨id, id⟩
  | data_len len =>
    obtain ⟨h0, h1⟩ := hop
    simp only [Operation.apply, SPPPacket.set_data_len_returns _ _ (show -1 ≤ len by omega),
      SPPDataField.size, length_vector_resize]
    omega
  | data s =>
    by_cases hs : s = []
    · subst hs
      simp only [Operation.apply, SPPPacket.set_data_empty]
      exact ⟨id, id⟩
    · have hl : 1 ≤ s.length := List.length_pos.mpr hs
      simp only [Operation.apply, SPPPacket.set_data_nonempty _ _ hs, SPPDataField.size,
        List.length_take, SPP_MAX_DATA_LEN]
      omega
  | serialize output =>
    simp only [Operation.apply, operator_lshift_data_field]
    exact ⟨id, id⟩
  | deserialize input =>
    have hs := operator_rshift_size input p
    have hr := (operator_rshift input p).packet.data_len_range
    simp only [Operation.apply]
    omega

/-- The data field never exceeds 65536 bytes under operations in range. -/
theorem run_size_le (ops : List Operation) (h : ∀ op ∈ ops, op.in_range) :
    (run ops).data_field.size ≤ 65536 := by
  induction ops using List.reverseRecOn with
  | nil => decide
  | append_singleton ops op ih =>
    rw [run_append]
    exact (Operation.apply_size _ op (h op (by simp))).2
      (ih (fun o ho => h o (by simp [ho])))

/-- What holds of the length field in place of the claimed invariant: under
operations in range, a clear `dirty_length` and a non-empty data field give
`data_len() = data_field.size() - 1`. -/
theorem run_synced (ops : List Operation) (h : ∀ op ∈ ops, op.in_range)
    (hd : (run ops).dirty_length = false) (hs : 1 ≤ (run ops).data_field.size) :
    (run ops).data_len = ((run ops).data_field.size : Int) - 1 := by
  have := (run_reachable ops).synced hd hs (by simpa [SPP_MAX_DATA_LEN] using run_size_le ops h)
  omega

/-- What holds of the data field in place of the claimed invariant: once it is
non-empty, operations in range keep it non-empty. -/
theorem run_nonempty_preserved (ops more : List Operation) (h : ∀ op ∈ more, op.in_range)
    (hs : 1 ≤ (run ops).data_field.size) : 1 ≤ (run (ops ++ more)).data_field.size := by
  induction more using List.reverseRecOn with
  | nil => simpa using hs
  | append_singleton more op ih =>
    rw [← List.append_assoc, run_append]
    exact (Operation.apply_size _ op (h op (by simp))).1
      (ih (fun o ho => h o (by simp [ho])))
